import Mathlib

/-! Verification of the Apstra MCP server tools: a shallow embedding of the
tool handlers in src/apstra and src/Apstra/apstra (identifier resolution,
anomaly formatting, the golden-configuration remediation workflow, the
configuration diff generator, and the tool dispatcher), together with proofs
of the specified properties. Python strings are modelled as lists of
characters, parsed JSON as an inductive value type, and the remote API as an
oracle from (endpoint, method) pairs to results; each handler additionally
returns the trace of API calls it issued, so that never/exactly-once call
properties can be stated. -/

namespace Apstra

/-- Python strings are modelled as lists of characters. -/
abbrev Str := List Char

/-- A parsed JSON value, as returned by response.json() in api_client.py and
consumed by the tool handlers. Numbers are modelled as integers (no claim
involves fractional values). Object fields keep insertion order, like a
Python dict. -/
inductive Json where
  | null : Json
  | bool (b : Bool) : Json
  | num (n : Int) : Json
  | str (s : Str) : Json
  | arr (items : List Json) : Json
  | obj (fields : List (Str × Json)) : Json

/-- First binding of a key in an association list of JSON object fields. -/
def lookupField : List (Str × Json) → Str → Option Json
  | [], _ => none
  | (k, v) :: rest, key => if k = key then some v else lookupField rest key

/-- Python dict.get(key, default) on a parsed JSON value. On a non-object the
default is returned; the handlers only reach this case on inputs the
well-formedness predicates below exclude (Python would raise there). -/
def Json.getD (j : Json) (key : Str) (dflt : Json) : Json :=
  match j with
  | .obj fs => (lookupField fs key).getD dflt
  | _ => dflt

/-- Python membership test (key in dict) on a parsed JSON value. -/
def Json.hasKey (j : Json) (key : Str) : Bool :=
  match j with
  | .obj fs => (lookupField fs key).isSome
  | _ => false

/-- The string content of a JSON value, if it is a string. -/
def Json.asStr : Json → Option Str
  | .str s => some s
  | _ => none

/-- The boolean content of a JSON value, if it is a boolean. -/
def Json.asBool : Json → Option Bool
  | .bool b => some b
  | _ => none

/-- Python isinstance(value, dict). -/
def Json.isObj : Json → Bool
  | .obj _ => true
  | _ => false

/-- The string content of a JSON value, with the empty string for non-string
values (the handlers only apply this where well-formedness gives a string). -/
def Json.strOr (j : Json) : Str :=
  match j with
  | .str s => s
  | _ => []

/-- Python equality of a JSON value against a string literal: true exactly
when the value is that string (a non-string value compares unequal). -/
def Json.eqStr (j : Json) (s : Str) : Bool :=
  match j with
  | .str t => t == s
  | _ => false

/-- Python truthiness (bool(value)) of a parsed JSON value. -/
def Json.truthy : Json → Bool
  | .null => false
  | .bool b => b
  | .num n => n != 0
  | .str s => !s.isEmpty
  | .arr l => !l.isEmpty
  | .obj fs => !fs.isEmpty

/-- Python str.lower() (ASCII case folding). -/
def lowerStr (s : Str) : Str := s.map Char.toLower

/-- Accumulating helper for splitlinesKeep; acc holds the current (reversed)
partial line. -/
def splitlinesKeepGo (acc : Str) : Str → List Str
  | [] => if acc.isEmpty then [] else [acc.reverse]
  | c :: rest =>
    if c = '\n' then (c :: acc).reverse :: splitlinesKeepGo [] rest
    else splitlinesKeepGo (c :: acc) rest

/-- Python str.splitlines(keepends=True) for newline-delimited text (the
form the configuration blobs diffed by the tools take; other Unicode line
boundaries are not modelled). -/
def splitlinesKeep (s : Str) : List Str := splitlinesKeepGo [] s

/-- Python substring containment: needle in hay. -/
def containsSub (needle : Str) : Str → Bool
  | [] => needle.isEmpty
  | c :: rest => needle.isPrefixOf (c :: rest) || containsSub needle rest

/-- Comma-space join of rendered pieces. -/
def joinComma (parts : List Str) : Str := List.intercalate ", ".toList parts

/-- An opening brace character. -/
def lbrace : Char := Char.ofNat 123

/-- A closing brace character. -/
def rbrace : Char := Char.ofNat 125

/-- An apostrophe (single quote) character. -/
def squote : Char := Char.ofNat 39

mutual

/-- Python str() of a parsed-JSON value: the repr-style rendering used by
format_config_application_result for its substring checks (dicts in braces
with single-quoted keys, True/False/None). Escaping inside rendered strings
is not modelled; no claim depends on it. -/
def pyRepr : Json → Str
  | .null => "None".toList
  | .bool true => "True".toList
  | .bool false => "False".toList
  | .num n => (toString n).toList
  | .str s => squote :: s ++ [squote]
  | .arr items => '[' :: joinComma (pyReprList items) ++ [']']
  | .obj fields => lbrace :: joinComma (pyReprFields fields) ++ [rbrace]
termination_by structural j => j

/-- Renders each element of a JSON array for pyRepr. -/
def pyReprList : List Json → List Str
  | [] => []
  | j :: rest => pyRepr j :: pyReprList rest
termination_by structural l => l

/-- Renders each field of a JSON object for pyRepr (the key rendered as a
quoted string, inlined so the recursion stays structural). -/
def pyReprFields : List (Str × Json) → List Str
  | [] => []
  | (k, v) :: rest =>
    (squote :: k ++ [squote] ++ ": ".toList ++ pyRepr v) :: pyReprFields rest
termination_by structural l => l

end

/-- JSON string escaping for dumps (newline, quote, backslash; sufficient for
the values the tools build). -/
def escChar (c : Char) : Str :=
  if c = '\n' then ['\\', 'n']
  else if c = '"' then ['\\', '"']
  else if c = '\\' then ['\\', '\\']
  else [c]

/-- Escapes a whole string for dumps. -/
def escapeStr (s : Str) : Str := List.flatten (s.map escChar)

mutual

/-- Model of json.dumps on the envelope values the tools construct. The
indent=2 whitespace of the source is not reproduced (no claim depends on the
serialized spelling, only on the envelope fields). -/
def dumps : Json → Str
  | .null => "null".toList
  | .bool true => "true".toList
  | .bool false => "false".toList
  | .num n => (toString n).toList
  | .str s => '"' :: escapeStr s ++ ['"']
  | .arr items => '[' :: joinComma (dumpsList items) ++ [']']
  | .obj fields => lbrace :: joinComma (dumpsFields fields) ++ [rbrace]
termination_by structural j => j

/-- Serializes each element of a JSON array for dumps. -/
def dumpsList : List Json → List Str
  | [] => []
  | j :: rest => dumps j :: dumpsList rest
termination_by structural l => l

/-- Serializes each field of a JSON object for dumps (the key serialized as
a quoted string, inlined so the recursion stays structural). -/
def dumpsFields : List (Str × Json) → List Str
  | [] => []
  | (k, v) :: rest =>
    ('"' :: escapeStr k ++ ['"'] ++ ": ".toList ++ dumps v) :: dumpsFields rest
termination_by structural l => l

end

/-! The diff generator. generate_config_diff in get_blueprint_anomalies.py
calls difflib.unified_diff on the two line lists. The library call is
modelled by an LCS-based line diff (equal heads are always matched, and in a
changed region deletions precede insertions, as in difflib's rendering of
replace regions) followed by difflib's opcode grouping with context width 3
and its unified-format rendering with lineterm=''. The model agrees with
difflib whenever the optimal alignment is unique; where several alignments
tie (difflib breaks ties by its longest-matching-block heuristic, this model
by preferring deletion), it can emit a different but equally minimal diff —
no claim depends on the tie-breaking. -/

/-- Fuelled core of lcsLen; the fuel bounds the sum of the two lengths, so
the zero-fuel clause is unreachable from the wrapper. (The fuel makes the
definition structurally recursive, hence evaluable by the kernel.) -/
def lcsLenGo : Nat → List Str → List Str → Nat
  | 0, _, _ => 0
  | _ + 1, [], _ => 0
  | _ + 1, _ :: _, [] => 0
  | fuel + 1, x :: xs, y :: ys =>
    if x = y then lcsLenGo fuel xs ys + 1
    else max (lcsLenGo fuel xs (y :: ys)) (lcsLenGo fuel (x :: xs) ys)

/-- Length of a longest common subsequence of two line lists. -/
def lcsLen (a b : List Str) : Nat := lcsLenGo (a.length + b.length) a b


/-- One line of the line-level diff. -/
inductive DiffItem where
  | keep (line : Str) : DiffItem
  | del (line : Str) : DiffItem
  | ins (line : Str) : DiffItem

/-- Fuelled core of diffItems; as for lcsLenGo the zero-fuel clause is
unreachable from the wrapper. -/
def diffItemsGo : Nat → List Str → List Str → List DiffItem
  | 0, _, _ => []
  | _ + 1, [], ys => ys.map .ins
  | _ + 1, x :: xs, [] => (x :: xs).map .del
  | fuel + 1, x :: xs, y :: ys =>
    if x = y then .keep x :: diffItemsGo fuel xs ys
    else if lcsLen (x :: xs) ys ≤ lcsLen xs (y :: ys) then
      .del x :: diffItemsGo fuel xs (y :: ys)
    else .ins y :: diffItemsGo fuel (x :: xs) ys

/-- LCS-based line diff: keeps equal heads, otherwise deletes or inserts
according to which branch preserves a longest common subsequence. -/
def diffItems (a b : List Str) : List DiffItem := diffItemsGo (a.length + b.length) a b


/-- Opcode tags mirroring difflib's get_opcodes; replace regions appear as a
delete run followed by an insert run, which unified rendering treats
identically. -/
inductive Tag where
  | equal : Tag
  | delete : Tag
  | insert : Tag
deriving DecidableEq

/-- A difflib opcode: a tag with half-open index ranges into the two line
lists. -/
structure Opcode where
  tag : Tag
  a1 : Nat
  a2 : Nat
  b1 : Nat
  b2 : Nat
deriving DecidableEq

/-- One opcode per diff item, with running indices. -/
def unitOps : List DiffItem → Nat → Nat → List Opcode
  | [], _, _ => []
  | .keep _ :: rest, i, j => ⟨.equal, i, i + 1, j, j + 1⟩ :: unitOps rest (i + 1) (j + 1)
  | .del _ :: rest, i, j => ⟨.delete, i, i + 1, j, j⟩ :: unitOps rest (i + 1) j
  | .ins _ :: rest, i, j => ⟨.insert, i, i, j, j + 1⟩ :: unitOps rest i (j + 1)

/-- Core of the merge: cur is the opcode being extended; an adjacent opcode
with the same tag is absorbed into it. -/
def mergeOpsGo (cur : Opcode) : List Opcode → List Opcode
  | [] => [cur]
  | c :: rest =>
    if cur.tag = c.tag then mergeOpsGo ⟨cur.tag, cur.a1, c.a2, cur.b1, c.b2⟩ rest
    else cur :: mergeOpsGo c rest

/-- Merges adjacent opcodes with the same tag into one spanning opcode. -/
def mergeOps : List Opcode → List Opcode
  | [] => []
  | c :: rest => mergeOpsGo c rest


/-- difflib's context width n = 3. -/
def ctxN : Nat := 3

/-- difflib get_grouped_opcodes: shrink a leading equal opcode to the last
three context lines. -/
def fixupHead : List Opcode → List Opcode
  | [] => []
  | c :: rest =>
    if c.tag = .equal then
      ⟨c.tag, max c.a1 (c.a2 - ctxN), c.a2, max c.b1 (c.b2 - ctxN), c.b2⟩ :: rest
    else c :: rest

/-- difflib get_grouped_opcodes: shrink a trailing equal opcode to the first
three context lines. -/
def fixupLast : List Opcode → List Opcode
  | [] => []
  | [c] =>
    if c.tag = .equal then
      [⟨c.tag, c.a1, min c.a2 (c.a1 + ctxN), c.b1, min c.b2 (c.b1 + ctxN)⟩]
    else [c]
  | c :: rest => c :: fixupLast rest

/-- Whether a group consists of a single equal opcode (difflib drops such a
group instead of yielding it). -/
def isSoleEqual : List Opcode → Bool
  | [c] => c.tag = .equal
  | _ => false

/-- difflib get_grouped_opcodes' main loop: split at equal opcodes spanning
more than twice the context width, keeping three lines of context on each
side; the final group is dropped when it is empty or a single equal. -/
def groupLoop : List Opcode → List Opcode → List (List Opcode)
  | [], group => if group.isEmpty || isSoleEqual group then [] else [group]
  | c :: rest, group =>
    if c.tag = .equal ∧ c.a2 - c.a1 > ctxN + ctxN then
      (group ++ [⟨c.tag, c.a1, min c.a2 (c.a1 + ctxN), c.b1, min c.b2 (c.b1 + ctxN)⟩]) ::
        groupLoop rest [⟨c.tag, max c.a1 (c.a2 - ctxN), c.a2, max c.b1 (c.b2 - ctxN), c.b2⟩]
    else groupLoop rest (group ++ [c])

/-- difflib get_grouped_opcodes(3): the placeholder equal opcode when there
are no opcodes at all, then the head/last fixups and the grouping loop. -/
def groupedOpcodes (codes0 : List Opcode) : List (List Opcode) :=
  let codes := if codes0.isEmpty then [⟨.equal, 0, 1, 0, 1⟩] else codes0
  groupLoop (fixupLast (fixupHead codes)) []

/-- Python-style half-open slice of a line list. -/
def sliceList (l : List Str) (i j : Nat) : List Str := (l.drop i).take (j - i)

/-- Decimal rendering of a natural number. -/
def natStr (n : Nat) : Str := (Nat.repr n).toList

/-- difflib's _format_range_unified: the start,length form of a hunk range. -/
def formatRangeUnified (start stop : Nat) : Str :=
  let len := stop - start
  if len = 1 then natStr (start + 1)
  else natStr (if len = 0 then start else start + 1) ++ ',' :: natStr len

/-- The unified-format rendering of one opcode: context, deletion or
insertion lines with their one-character markers. -/
def renderOpcode (a b : List Str) (c : Opcode) : List Str :=
  match c.tag with
  | .equal => (sliceList a c.a1 c.a2).map (fun line => ' ' :: line)
  | .delete => (sliceList a c.a1 c.a2).map (fun line => '-' :: line)
  | .insert => (sliceList b c.b1 c.b2).map (fun line => '+' :: line)

/-- The @@ hunk header of one group. -/
def hunkHeader (g : List Opcode) : Str :=
  let first := g.headD ⟨.equal, 0, 0, 0, 0⟩
  let last := g.getLastD ⟨.equal, 0, 0, 0, 0⟩
  "@@ -".toList ++ formatRangeUnified first.a1 last.a2 ++
    " +".toList ++ formatRangeUnified first.b1 last.b2 ++ " @@".toList

/-- Model of list(difflib.unified_diff(a, b, fromfile, tofile, lineterm=''))
as called by generate_config_diff: the two file headers are emitted before
the first hunk only, then each group's hunk header and rendered lines. -/
def unifiedDiff (a b : List Str) (fromfile tofile : Str) : List Str :=
  let groups := groupedOpcodes (mergeOps (unitOps (diffItems a b) 0 0))
  match groups with
  | [] => []
  | _ =>
    ("--- ".toList ++ fromfile) :: ("+++ ".toList ++ tofile) ::
      List.flatten (groups.map (fun g => hunkHeader g :: List.flatten (g.map (renderOpcode a b))))

/-- The no-differences marker returned by generate_config_diff. -/
def noDiffMarker : Str := "No differences detected in configuration comparison".toList

/-- The truncation marker generate_config_diff appends past 5000 characters. -/
def truncationMarker : Str := "\n... [diff truncated for readability] ...".toList

/-- The diff lines generate_config_diff computes before joining. -/
def configDiffLines (expected_config actual_config : Str) : List Str :=
  unifiedDiff (splitlinesKeep expected_config) (splitlinesKeep actual_config)
    "Expected Config".toList "Actual Config".toList

/-- The rendered unified diff between two configuration texts (the diff
lines joined with newlines), before any truncation. -/
def renderedConfigDiff (expected_config actual_config : Str) : Str :=
  List.intercalate "\n".toList (configDiffLines expected_config actual_config)

/-- generate_config_diff from get_blueprint_anomalies.py: the unified diff of
the two configuration texts, the no-differences marker when the diff is
empty, and truncation at 5000 characters. The internal try/except that turns
a non-string argument into a fallback message is outside this typed model;
both arguments here are strings, on which the body cannot raise. -/
def generate_config_diff (expected_config actual_config : Str) : Str :=
  match configDiffLines expected_config actual_config with
  | [] => noDiffMarker
  | _ :: _ =>
    let diff_output := renderedConfigDiff expected_config actual_config
    if diff_output.length > 5000 then diff_output.take 5000 ++ truncationMarker
    else diff_output

/-! Anomaly formatting: format_blueprint_anomalies_json in
get_blueprint_anomalies.py. -/

/-- The default value string N/A used throughout the field mappings. -/
def NA : Json := .str "N/A".toList

/-- Python str(value) as used by f-string interpolation: a string is
inserted verbatim, other values through their repr-style rendering. -/
def pyStrOf (j : Json) : Str :=
  match j with
  | .str s => s
  | _ => pyRepr j

/-- Python dict assignment d[k] = v: updates an existing key in place,
appends a new one. -/
def setField : List (Str × Json) → Str → Json → List (Str × Json)
  | [], k, v => [(k, v)]
  | (k0, v0) :: rest, k, v =>
    if k0 = k then (k0, v) :: rest else (k0, v0) :: setField rest k v

/-- The items list of a listing or anomalies response: the value of the
items key when the response is a dict holding a list there, otherwise empty.
A dict whose items value is not a list makes the Python loops raise; the
well-formedness predicates below exclude that case. -/
def itemsList (d : Json) : List Json :=
  match d with
  | .obj fs =>
    match lookupField fs "items".toList with
    | some (.arr l) => l
    | _ => []
  | _ => []

/-- anomaly.get('anomaly_type', 'unknown'), the group key of the anomaly
formatting loop. Well-formedness takes a stored anomaly_type to be a
string. -/
def anomalyType (anomaly : Json) : Str :=
  (anomaly.getD "anomaly_type".toList (.str "unknown".toList)).strOr

/-- The per-anomaly record of format_blueprint_anomalies_json before
type-specific adjustments: the keys, sources and defaults of the source dict
literal, in order. -/
def baseAnomalyFields (anomaly : Json) (atype : Str) : List (Str × Json) :=
  [("SEVERITY".toList, anomaly.getD "severity".toList NA),
   ("ANOMALY_TYPE".toList, .str atype),
   ("ANOMALOUS_NODE_ID".toList, anomaly.getD "anomalous_node_id".toList NA),
   ("SYSTEM_ID".toList, (anomaly.getD "identity".toList (.obj [])).getD "system_id".toList NA),
   ("HOSTNAME".toList, (anomaly.getD "identity".toList (.obj [])).getD "hostname".toList NA),
   ("ANOMALY_METADATA".toList, anomaly.getD "identity".toList (.obj [])),
   ("EXPECTED_STATE".toList, (anomaly.getD "expected".toList (.obj [])).getD "value".toList NA),
   ("ACTUAL_STATE".toList, (anomaly.getD "actual".toList (.obj [])).getD "value".toList NA),
   ("LAST_MODIFIED".toList, anomaly.getD "last_modified_at".toList NA),
   ("ROLE".toList, anomaly.getD "role".toList NA),
   ("ANOMALY_ID".toList, anomaly.getD "id".toList NA)]

/-- Route-specific enrichment of one anomaly record. -/
def routeAdjust (anomaly : Json) (fs0 : List (Str × Json)) : List (Str × Json) :=
  let route_info := anomaly.getD "identity".toList (.obj [])
  let fs1 := setField fs0 "ROUTE_PREFIX".toList (route_info.getD "prefix".toList NA)
  let fs2 := setField fs1 "VRF_NAME".toList (route_info.getD "vrf_name".toList NA)
  let fs3 := setField fs2 "ROUTE_TYPE".toList (route_info.getD "route_type".toList NA)
  let expected_val := (anomaly.getD "expected".toList (.obj [])).getD "value".toList (.str [])
  let actual_val := (anomaly.getD "actual".toList (.obj [])).getD "value".toList (.str [])
  if expected_val.truthy || actual_val.truthy then
    let fs4 := setField fs3 "EXPECTED_STATE".toList
      (if expected_val.truthy then expected_val else .str "Route should be present".toList)
    setField fs4 "ACTUAL_STATE".toList
      (if actual_val.truthy then actual_val else .str "Route missing or incorrect".toList)
  else fs3

/-- Config-specific handling of one anomaly record: a unified diff of the
expected and actual configurations when both are present. -/
def configAdjust (anomaly : Json) (fs0 : List (Str × Json)) : List (Str × Json) :=
  let expected_config := ((anomaly.getD "expected".toList (.obj [])).getD "config".toList (.str [])).strOr
  let actual_config := ((anomaly.getD "actual".toList (.obj [])).getD "config".toList (.str [])).strOr
  if !expected_config.isEmpty && !actual_config.isEmpty then
    let fs1 := setField fs0 "EXPECTED_STATE".toList (.str "Working config".toList)
    setField fs1 "ACTUAL_STATE".toList (.str (generate_config_diff expected_config actual_config))
  else
    let fs1 := setField fs0 "EXPECTED_STATE".toList (.str "Working config".toList)
    setField fs1 "ACTUAL_STATE".toList (.str "Config deviation detected".toList)

/-- BGP-specific enrichment of one anomaly record. -/
def bgpAdjust (anomaly : Json) (fs0 : List (Str × Json)) : List (Str × Json) :=
  let bgp_info := anomaly.getD "identity".toList (.obj [])
  let fs1 := setField fs0 "PEER_IP".toList (bgp_info.getD "peer_ip".toList NA)
  let fs2 := setField fs1 "ASN".toList (bgp_info.getD "asn".toList NA)
  let fs3 := setField fs2 "VRF_NAME".toList (bgp_info.getD "vrf_name".toList NA)
  setField fs3 "ADDRESS_FAMILY".toList (bgp_info.getD "address_family".toList NA)

/-- The full record for one anomaly, with its type-specific adjustments. -/
def anomalyRecord (anomaly : Json) : List (Str × Json) :=
  let atype := anomalyType anomaly
  let base := baseAnomalyFields anomaly atype
  if atype = "route".toList then routeAdjust anomaly base
  else if atype = "config".toList then configAdjust anomaly base
  else if atype = "bgp".toList then bgpAdjust anomaly base
  else base

/-- Appends a value at a key of the insertion-ordered anomalies_by_type
multi-map. -/
def appendAt : List (Str × List Json) → Str → Json → List (Str × List Json)
  | [], k, v => [(k, [v])]
  | (k0, vs) :: rest, k, v =>
    if k0 = k then (k0, vs ++ [v]) :: rest else (k0, vs) :: appendAt rest k v

/-- Adds a node id to a system's node set in system_node_mapping. The Python
set is modelled by an insertion-ordered duplicate-free list (set iteration
order is unspecified upstream; no claim depends on it). -/
def addMapping : List (Str × List Str) → Str → Str → List (Str × List Str)
  | [], s, nd => [(s, [nd])]
  | (s0, nds) :: rest, s, nd =>
    if s0 = s then (s0, if nd ∈ nds then nds else nds ++ [nd]) :: rest
    else (s0, nds) :: addMapping rest s nd

/-- State of the anomaly grouping loop: anomalies_by_type and
system_node_mapping. -/
structure GroupState where
  byType : List (Str × List Json)
  mapping : List (Str × List Str)

/-- One iteration of the grouping loop of format_blueprint_anomalies_json.
The mapping is updated when both SYSTEM_ID and ANOMALOUS_NODE_ID differ from
N/A; well-formedness takes those stored identifiers to be strings (Python
would key the dict by arbitrary hashable values). -/
def processAnomaly (st : GroupState) (anomaly : Json) : GroupState :=
  let atype := anomalyType anomaly
  let record := anomalyRecord anomaly
  let sysId := (lookupField record "SYSTEM_ID".toList).getD NA
  let nodeId := (lookupField record "ANOMALOUS_NODE_ID".toList).getD NA
  let mapping :=
    match sysId.asStr, nodeId.asStr with
    | some s, some nd =>
      if s ≠ "N/A".toList ∧ nd ≠ "N/A".toList then addMapping st.mapping s nd else st.mapping
    | _, _ => st.mapping
  ⟨appendAt st.byType atype (.obj record), mapping⟩

/-- The success envelope of format_blueprint_anomalies_json for a response
holding an items list. -/
def anomaliesSuccessEnvelope (items : List Json) (identifier context_info : Str) : Json :=
  let st := items.foldl processAnomaly ⟨[], []⟩
  .obj [
    ("status".toList, .str "success".toList),
    ("message".toList, .str ("Retrieved ".toList ++ natStr items.length ++
      " anomalies for ".toList ++ context_info)),
    ("context".toList, .str context_info),
    ("identifier".toList, .str identifier),
    ("total_anomalies".toList, .num items.length),
    ("anomalies_by_type".toList, .obj (st.byType.map (fun kv => (kv.1, .arr kv.2)))),
    ("anomaly_type_counts".toList, .obj (st.byType.map (fun kv => (kv.1, .num kv.2.length)))),
    ("system_node_mapping".toList, .obj (st.mapping.map (fun kv => (kv.1, .arr (kv.2.map Json.str))))),
    ("affected_systems".toList, .num st.mapping.length),
    ("affected_nodes".toList, .num (st.mapping.foldl (fun n kv => n + kv.2.length) 0))]

/-- The no_data envelope of format_blueprint_anomalies_json for a response
without an items list. -/
def anomaliesNoDataEnvelope (anomalies_data : Json) (identifier context_info : Str) : Json :=
  .obj [
    ("status".toList, .str "no_data".toList),
    ("message".toList, .str ("No anomalies found for ".toList ++ context_info ++
      " or unexpected data format".toList)),
    ("context".toList, .str context_info),
    ("identifier".toList, .str identifier),
    ("total_anomalies".toList, .num 0),
    ("anomalies_by_type".toList, .obj []),
    ("raw_data".toList, anomalies_data)]

/-- The envelope format_blueprint_anomalies_json serializes. This is also the
value format_config_confirmation_request recovers when it splits the
serialized output on the prompt delimiter and parses the JSON part back:
dumps escapes newlines inside strings, so the delimiter first occurs in the
appended prompt and json.loads inverts the serialization. -/
def anomaliesEnvelope (anomalies_data : Json) (identifier context_info : Str) : Json :=
  if anomalies_data.isObj && anomalies_data.hasKey "items".toList then
    anomaliesSuccessEnvelope (itemsList anomalies_data) identifier context_info
  else
    anomaliesNoDataEnvelope anomalies_data identifier context_info

/-- The static LLM-instruction block appended after the anomalies envelope.
The multi-page markdown template of the source is abbreviated to its opening
delimiter and heading; no claim depends on the template text. -/
def anomaliesTablePrompt : Str :=
  "\n\n---\n\n## LLM INSTRUCTION: FORMAT OUTPUT AS COMPREHENSIVE ANOMALY ANALYSIS\n".toList

/-- format_blueprint_anomalies_json from get_blueprint_anomalies.py: the
envelope serialized, with the instruction block appended in the items
branch only. -/
def format_blueprint_anomalies_json (anomalies_data : Json) (identifier context_info : Str) : Str :=
  if anomalies_data.isObj && anomalies_data.hasKey "items".toList then
    dumps (anomaliesSuccessEnvelope (itemsList anomalies_data) identifier context_info) ++
      anomaliesTablePrompt
  else
    dumps (anomaliesNoDataEnvelope anomalies_data identifier context_info)

/-! The golden-configuration remediation workflow:
apply_system_golden_config.py. -/

/-- The no-action envelope of format_no_config_anomalies_response. -/
def noActionEnvelope (system_id : Str) : Json :=
  .obj [
    ("status".toList, .str "no_action_needed".toList),
    ("message".toList, .str ("System '".toList ++ system_id ++
      "' has no configuration anomalies".toList)),
    ("system_id".toList, .str system_id),
    ("config_status".toList, .str "in_sync".toList),
    ("action_required".toList, .bool false)]

/-- The static instruction block of the no-action response (abbreviated, as
above). -/
def noActionInfoPrompt : Str :=
  "\n\n---\n\n## LLM INSTRUCTION: FORMAT NO-ACTION-NEEDED RESPONSE\n".toList

/-- format_no_config_anomalies_response from apply_system_golden_config.py. -/
def format_no_config_anomalies_response (system_id : Str) : Str :=
  dumps (noActionEnvelope system_id) ++ noActionInfoPrompt

/-- The confirmation envelope of format_config_confirmation_request: the
config_anomalies field embeds the anomaly analysis envelope recovered from
the serialized analysis (see anomaliesEnvelope). -/
def confirmationEnvelope (anomalies_data : Json) (system_id : Str) : Json :=
  let context_info := "system '".toList ++ system_id ++ "'".toList
  .obj [
    ("status".toList, .str "confirmation_required".toList),
    ("message".toList, .str ("Configuration anomalies detected for system '".toList ++
      system_id ++ "' - confirmation required before applying golden config".toList)),
    ("system_id".toList, .str system_id),
    ("action_pending".toList, .str "apply_golden_config".toList),
    ("config_anomalies".toList, anomaliesEnvelope anomalies_data system_id context_info)]

/-- The static instruction block of the confirmation request (abbreviated). -/
def confirmationPrompt : Str :=
  "\n\n---\n\n## LLM INSTRUCTION: FORMAT CONFIGURATION CONFIRMATION REQUEST\n".toList

/-- format_config_confirmation_request from apply_system_golden_config.py. -/
def format_config_confirmation_request (anomalies_data : Json) (system_id : Str) : Str :=
  dumps (confirmationEnvelope anomalies_data system_id) ++ confirmationPrompt

/-- The success classification of format_config_application_result, with the
branch structure of the source: a status field equal to success or the
substring success in the lowercased str() of the response yields success;
otherwise the key error in the dict or the substring failed in the
lowercased str() yields failure; any other dict, and every non-dict
response, is assumed successful. -/
def applySuccess (apply_response : Json) : Bool :=
  if apply_response.isObj then
    if (apply_response.getD "status".toList .null).eqStr "success".toList
        || containsSub "success".toList (lowerStr (pyRepr apply_response)) then true
    else if apply_response.hasKey "error".toList
        || containsSub "failed".toList (lowerStr (pyRepr apply_response)) then false
    else true
  else true

/-- The message accompanying the classification, following the same branch
structure. -/
def applyMessage (apply_response : Json) : Str :=
  if apply_response.isObj then
    if (apply_response.getD "status".toList .null).eqStr "success".toList
        || containsSub "success".toList (lowerStr (pyRepr apply_response)) then
      "Golden configuration applied successfully".toList
    else if apply_response.hasKey "error".toList
        || containsSub "failed".toList (lowerStr (pyRepr apply_response)) then
      "Failed to apply golden configuration: ".toList ++
        pyStrOf (apply_response.getD "message".toList (.str (pyStrOf apply_response)))
    else "Golden configuration application initiated".toList
  else "Golden configuration application completed".toList

/-- The result envelope of format_config_application_result. -/
def applicationResultEnvelope (apply_response : Json) (system_id : Str) : Json :=
  let success := applySuccess apply_response
  .obj [
    ("status".toList, .str (if success then "applied".toList else "failed".toList)),
    ("message".toList, .str (applyMessage apply_response)),
    ("system_id".toList, .str system_id),
    ("action_completed".toList, .str "apply_golden_config".toList),
    ("success".toList, .bool success),
    ("response_data".toList, if apply_response.isObj then apply_response
      else .str (pyStrOf apply_response))]

/-- The static instruction block of the application result (abbreviated). -/
def resultPrompt : Str :=
  "\n\n---\n\n## LLM INSTRUCTION: FORMAT CONFIGURATION APPLICATION RESULT\n".toList

/-- format_config_application_result from apply_system_golden_config.py. -/
def format_config_application_result (apply_response : Json) (system_id : Str) : Str :=
  dumps (applicationResultEnvelope apply_response system_id) ++ resultPrompt

/-! The tool handlers. Each handler takes the API oracle and the argument
dict, and returns its text blocks together with the trace of API calls it
issued; the outermost try/except of each handler appears as the .error
branches turning an oracle failure into an error text. -/

/-- A returned text block (mcp.types.TextContent with type text). -/
structure TextContent where
  text : Str
deriving DecidableEq

/-- One HTTP call issued through make_apstra_api_call: endpoint and method. -/
structure ApiCall where
  endpoint : Str
  method : Str
deriving DecidableEq

/-- The remote API as an oracle: a call either raises (the error string is
the str(e) of the exception) or returns parsed JSON. -/
abbrev ApiOracle := ApiCall → Except Str Json

/-- Tool arguments: a dict of string-valued named arguments (the input
schemas in server.py declare every argument as a string). -/
abbrev Args := List (Str × Str)

/-- arguments.get(name, "") on the argument dict. -/
def argGet : Args → Str → Str
  | [], _ => []
  | (k, v) :: rest, key => if k = key then v else argGet rest key

/-- The GET endpoint for a system's anomalies. -/
def systemAnomaliesCall (system_id : Str) : ApiCall :=
  ⟨"/api/systems/".toList ++ system_id ++ "/anomalies".toList, "GET".toList⟩

/-- The POST endpoint applying the full golden configuration to a system. -/
def applyFullConfigCall (system_id : Str) : ApiCall :=
  ⟨"/api/systems/".toList ++ system_id ++ "/apply-full-config".toList, "POST".toList⟩

/-- The GET endpoint for a blueprint's anomalies. -/
def blueprintAnomaliesCall (blueprint_id : Str) : ApiCall :=
  ⟨"/api/blueprints/".toList ++ blueprint_id ++ "/anomalies".toList, "GET".toList⟩

/-- The GET endpoint listing all blueprints. -/
def blueprintsListCall : ApiCall := ⟨"/api/blueprints".toList, "GET".toList⟩

/-- The config-anomaly scan of handle_apply_system_golden_config: the fetched
response is a dict with an items key, some item of which has anomaly_type
config. -/
def hasConfigAnomalies (anomalies_data : Json) : Bool :=
  anomalies_data.isObj && anomalies_data.hasKey "items".toList &&
    (itemsList anomalies_data).any
      (fun a => (a.getD "anomaly_type".toList .null).eqStr "config".toList)

/-- The accepted confirmation tokens of the confirmation gate. -/
def acceptedConfirmations : List Str :=
  ["yes".toList, "y".toList, "confirm".toList, "apply".toList]

/-- handle_apply_system_golden_config from apply_system_golden_config.py. -/
def handle_apply_system_golden_config (api : ApiOracle) (arguments : Args) :
    List TextContent × List ApiCall :=
  let system_id := argGet arguments "system_id".toList
  let confirmation := lowerStr (argGet arguments "confirmation".toList)
  if system_id.isEmpty then ([⟨"System ID is required".toList⟩], [])
  else
    match api (systemAnomaliesCall system_id) with
    | .error e =>
      ([⟨"Error applying golden config: ".toList ++ e⟩], [systemAnomaliesCall system_id])
    | .ok anomalies_data =>
      if !hasConfigAnomalies anomalies_data then
        ([⟨format_no_config_anomalies_response system_id⟩], [systemAnomaliesCall system_id])
      else if confirmation.isEmpty || !acceptedConfirmations.contains confirmation then
        ([⟨format_config_confirmation_request anomalies_data system_id⟩],
         [systemAnomaliesCall system_id])
      else
        match api (applyFullConfigCall system_id) with
        | .error e =>
          ([⟨"Error applying golden config: ".toList ++ e⟩],
           [systemAnomaliesCall system_id, applyFullConfigCall system_id])
        | .ok apply_response =>
          ([⟨format_config_application_result apply_response system_id⟩],
           [systemAnomaliesCall system_id, applyFullConfigCall system_id])

/-- handle_get_blueprint_anomalies from get_blueprint_anomalies.py: the
system_id branch is taken whenever system_id is non-empty, the blueprint
branch only otherwise. -/
def handle_get_blueprint_anomalies (api : ApiOracle) (arguments : Args) :
    List TextContent × List ApiCall :=
  let system_id := argGet arguments "system_id".toList
  let blueprint_id := argGet arguments "blueprint_id".toList
  if system_id.isEmpty && blueprint_id.isEmpty then
    ([⟨"Either system_id or blueprint_id is required".toList⟩], [])
  else
    let call := if system_id.isEmpty then blueprintAnomaliesCall blueprint_id
      else systemAnomaliesCall system_id
    let context_info := if system_id.isEmpty then
        "blueprint '".toList ++ blueprint_id ++ "'".toList
      else "system '".toList ++ system_id ++ "'".toList
    match api call with
    | .error e => ([⟨"Error getting anomalies: ".toList ++ e⟩], [call])
    | .ok anomalies_data =>
      ([⟨format_blueprint_anomalies_json anomalies_data
          (if system_id.isEmpty then blueprint_id else system_id) context_info⟩], [call])

/-! Identifier resolution and the remaining read tools. -/

/-- Python str.replace for single characters. -/
def replaceChar (s : Str) (old new : Char) : Str :=
  s.map (fun c => if c = old then new else c)

/-- Helper for pyTitle, tracking whether the previous character was a
letter. -/
def pyTitleGo (prevAlpha : Bool) : Str → Str
  | [] => []
  | c :: rest =>
    if c.isAlpha then (if prevAlpha then c.toLower else c.toUpper) :: pyTitleGo true rest
    else c :: pyTitleGo false rest

/-- Python str.title(): capitalize the first letter of each run of letters,
lowercase the rest. -/
def pyTitle (s : Str) : Str := pyTitleGo false s

/-- Python str.upper() (ASCII). -/
def upperStr (s : Str) : Str := s.map Char.toUpper

/-- The fields of a JSON object, empty for other values. -/
def objFields : Json → List (Str × Json)
  | .obj fs => fs
  | _ => []

/-- The elements of a JSON array, empty for other values. -/
def arrItems : Json → List Json
  | .arr l => l
  | _ => []

/-- The tags rendering shared by the detail tools: comma-space join of the
tags list when truthy, the literal None otherwise. -/
def tagsField (d : Json) : Json :=
  if (d.getD "tags".toList .null).truthy then
    .str (joinComma ((arrItems (d.getD "tags".toList (.arr []))).map Json.strOr))
  else .str "None".toList

/-- An N/A fallback for values that are None (absent or null). -/
def orNA (j : Json) : Json :=
  match j with
  | .null => NA
  | _ => j

/-- The match test of the blueprint resolution loop: canonical id compared
exactly (Python value equality against the supplied string), or label
compared case-insensitively. A stored non-string label would make Python
raise; well-formed listings carry string labels. -/
def bpMatches (bp : Json) (blueprint_id : Str) : Bool :=
  (bp.getD "id".toList .null).eqStr blueprint_id
    || lowerStr (bp.getD "label".toList (.str [])).strOr == lowerStr blueprint_id

/-- The resolution scan duplicated by get_blueprint_details,
get_system_details, get_virtual_networks, get_security_zones and
get_config_audits: the first item of the /api/blueprints listing matching
the identifier, none when nothing matches or the listing is malformed. -/
def resolveBlueprint (blueprints_data : Json) (blueprint_id : Str) : Option Json :=
  if blueprints_data.isObj && blueprints_data.hasKey "items".toList then
    (itemsList blueprints_data).find? (fun bp => bpMatches bp blueprint_id)
  else none

/-- blueprint_info.get('label', blueprint_id): the display name passed to
the formatting functions. -/
def blueprintLabelOr (blueprint_info : Json) (blueprint_id : Str) : Json :=
  blueprint_info.getD "label".toList (.str blueprint_id)

/-- The blueprint summary record of format_blueprint_details_json. -/
def blueprintSummaryFields (blueprint_info : Json) : List (Str × Json) :=
  [("BLUEPRINT_ID".toList, blueprint_info.getD "id".toList NA),
   ("NAME".toList, blueprint_info.getD "label".toList NA),
   ("DESIGN_TYPE".toList,
     .str (pyTitle (replaceChar (blueprint_info.getD "design".toList NA).strOr '_' ' '))),
   ("STATUS".toList, blueprint_info.getD "status".toList NA),
   ("CREATED_AT".toList, blueprint_info.getD "created_at".toList NA),
   ("LAST_MODIFIED".toList, blueprint_info.getD "last_modified_at".toList NA),
   ("LEAF_COUNT".toList, blueprint_info.getD "leaf_count".toList (.num 0)),
   ("SPINE_COUNT".toList, blueprint_info.getD "spine_count".toList (.num 0)),
   ("REMOTE_GATEWAY_COUNT".toList, blueprint_info.getD "remote_gateway_count".toList (.num 0)),
   ("SECURITY_ZONE_COUNT".toList, blueprint_info.getD "security_zone_count".toList (.num 0)),
   ("VIRTUAL_NETWORK_COUNT".toList, blueprint_info.getD "virtual_network_count".toList (.num 0)),
   ("BUILD_ERRORS".toList, blueprint_info.getD "build_errors_count".toList (.num 0)),
   ("BUILD_WARNINGS".toList, blueprint_info.getD "build_warnings_count".toList (.num 0))]

/-- One system node record of format_blueprint_details_json. -/
def detailsSystemRecord (node : Json) : Json :=
  .obj [
    ("NAME".toList, node.getD "label".toList NA),
    ("ROLE".toList, node.getD "role".toList NA),
    ("SYSTEM_TYPE".toList, node.getD "system_type".toList NA),
    ("HOSTNAME".toList, node.getD "hostname".toList NA),
    ("DEVICE_KEY".toList, node.getD "device_key".toList NA)]

/-- One virtual-network node record of format_blueprint_details_json. -/
def detailsVnRecord (node : Json) : Json :=
  .obj [
    ("NAME".toList, node.getD "label".toList NA),
    ("VN_TYPE".toList, node.getD "vn_type".toList NA),
    ("VN_ID".toList, node.getD "vn_id".toList NA),
    ("VLAN_ID".toList, node.getD "reserved_vlan_id".toList NA),
    ("IPV4_SUBNET".toList, node.getD "ipv4_subnet".toList NA),
    ("GATEWAY_IPV4".toList, node.getD "virtual_gateway_ipv4".toList NA),
    ("L3_MTU".toList, node.getD "l3_mtu".toList NA)]

/-- One security-zone node record of format_blueprint_details_json. -/
def detailsSzRecord (node : Json) : Json :=
  .obj [
    ("VRF_NAME".toList, node.getD "vrf_name".toList NA),
    ("SZ_TYPE".toList, node.getD "sz_type".toList NA),
    ("VNI_ID".toList, node.getD "vni_id".toList NA),
    ("VRF_ID".toList, node.getD "vrf_id".toList NA),
    ("L3_MTU".toList, node.getD "l3_mtu".toList NA),
    ("EVPN_IRB_MODE".toList, node.getD "junos_evpn_irb_mode".toList NA)]

/-- The nodes dict of the blueprint-details response, as a field list. -/
def nodesFields (nodes_data : Json) : List (Str × Json) :=
  if nodes_data.isObj && nodes_data.hasKey "nodes".toList then
    objFields (nodes_data.getD "nodes".toList (.obj []))
  else []

/-- The node values of the given type among the nodes (the loop's
isinstance and type checks). -/
def nodesOfType (nodes_data : Json) (t : Str) : List Json :=
  (nodesFields nodes_data).filterMap
    (fun kv => if kv.2.isObj && (kv.2.getD "type".toList .null).eqStr t then some kv.2 else none)

/-- The envelope of format_blueprint_details_json. -/
def blueprintDetailsEnvelope (blueprint_info nodes_data : Json) : Json :=
  let systems := (nodesOfType nodes_data "system".toList).map detailsSystemRecord
  let virtual_networks := (nodesOfType nodes_data "virtual_network".toList).map detailsVnRecord
  let security_zones := (nodesOfType nodes_data "security_zone".toList).map detailsSzRecord
  .obj [
    ("status".toList, .str "success".toList),
    ("message".toList, .str ("Retrieved comprehensive details for blueprint '".toList ++
      pyStrOf (blueprint_info.getD "label".toList NA) ++ "'".toList)),
    ("blueprint_details".toList, .obj (blueprintSummaryFields blueprint_info)),
    ("systems".toList, .obj [
      ("total_count".toList, .num systems.length),
      ("systems".toList, .arr systems)]),
    ("virtual_networks".toList, .obj [
      ("total_count".toList, .num virtual_networks.length),
      ("virtual_networks".toList, .arr virtual_networks)]),
    ("security_zones".toList, .obj [
      ("total_count".toList, .num security_zones.length),
      ("security_zones".toList, .arr security_zones)])]

/-- The static instruction block of the blueprint overview (abbreviated). -/
def detailsTablePrompt : Str :=
  "\n\n---\n\n## LLM INSTRUCTION: FORMAT OUTPUT AS COMPREHENSIVE BLUEPRINT OVERVIEW\n".toList

/-- format_blueprint_details_json from get_blueprint_details.py. -/
def format_blueprint_details_json (blueprint_info nodes_data : Json) : Str :=
  dumps (blueprintDetailsEnvelope blueprint_info nodes_data) ++ detailsTablePrompt

/-- handle_get_blueprint_details from get_blueprint_details.py. The direct
index blueprint_info['id'] is modelled by the string content of the id field
(well-formed listing items carry a string id; a missing one would raise
KeyError into the handler's except clause). -/
def handle_get_blueprint_details (api : ApiOracle) (arguments : Args) :
    List TextContent × List ApiCall :=
  let blueprint_id := argGet arguments "blueprint_id".toList
  if blueprint_id.isEmpty then ([⟨"Blueprint ID is required".toList⟩], [])
  else
    match api blueprintsListCall with
    | .error e => ([⟨"Error getting blueprint details: ".toList ++ e⟩], [blueprintsListCall])
    | .ok blueprints_data =>
      match resolveBlueprint blueprints_data blueprint_id with
      | none =>
        ([⟨"Blueprint '".toList ++ blueprint_id ++ "' not found".toList⟩], [blueprintsListCall])
      | some blueprint_info =>
        let bp_id := (blueprint_info.getD "id".toList (.str [])).strOr
        let call2 : ApiCall := ⟨"/api/blueprints/".toList ++ bp_id, "GET".toList⟩
        match api call2 with
        | .error e =>
          ([⟨"Error getting blueprint details: ".toList ++ e⟩], [blueprintsListCall, call2])
        | .ok nodes_data =>
          ([⟨format_blueprint_details_json blueprint_info nodes_data⟩],
           [blueprintsListCall, call2])

/-- One blueprint record of format_blueprints_json. -/
def blueprintListRecord (blueprint : Json) : Json :=
  .obj [
    ("NAME".toList, blueprint.getD "label".toList NA),
    ("ID".toList, blueprint.getD "id".toList NA),
    ("SPINES".toList, blueprint.getD "spine_count".toList (.num 0)),
    ("LEAFS".toList, blueprint.getD "leaf_count".toList (.num 0)),
    ("GENERIC_SYSTEMS".toList, blueprint.getD "generic_count".toList (.num 0)),
    ("VIRTUAL_NETWORKS".toList, blueprint.getD "virtual_network_count".toList (.num 0)),
    ("SECURITY_ZONES".toList, blueprint.getD "security_zone_count".toList (.num 0)),
    ("MODIFIED_AT".toList, blueprint.getD "last_modified_at".toList NA),
    ("BUILD_ERRORS".toList, blueprint.getD "build_errors_count".toList (.num 0))]

/-- One anomaly-count record of format_blueprints_json. -/
def blueprintAnomalyRecord (blueprint : Json) : Json :=
  let anomaly_counts := blueprint.getD "anomaly_counts".toList (.obj [])
  .obj [
    ("BLUEPRINT_NAME".toList, blueprint.getD "label".toList NA),
    ("BLUEPRINT_ID".toList, blueprint.getD "id".toList NA),
    ("ARP".toList, anomaly_counts.getD "arp".toList (.num 0)),
    ("MLAG".toList, anomaly_counts.getD "mlag".toList (.num 0)),
    ("INTERFACE".toList, anomaly_counts.getD "interface".toList (.num 0)),
    ("SERIES".toList, anomaly_counts.getD "series".toList (.num 0)),
    ("CONFIG".toList, anomaly_counts.getD "config".toList (.num 0)),
    ("HOSTNAME".toList, anomaly_counts.getD "hostname".toList (.num 0)),
    ("ROUTE".toList, anomaly_counts.getD "route".toList (.num 0)),
    ("ALL".toList, anomaly_counts.getD "all".toList (.num 0)),
    ("BGP".toList, anomaly_counts.getD "bgp".toList (.num 0)),
    ("LIVENESS".toList, anomaly_counts.getD "liveness".toList (.num 0)),
    ("COUNTER".toList, anomaly_counts.getD "counter".toList (.num 0)),
    ("BLUEPRINT_RENDERING".toList, anomaly_counts.getD "blueprint_rendering".toList (.num 0)),
    ("PROBE".toList, anomaly_counts.getD "probe".toList (.num 0)),
    ("DEPLOYMENT".toList, anomaly_counts.getD "deployment".toList (.num 0)),
    ("CABLING".toList, anomaly_counts.getD "cabling".toList (.num 0)),
    ("LAG".toList, anomaly_counts.getD "lag".toList (.num 0)),
    ("MAC".toList, anomaly_counts.getD "mac".toList (.num 0)),
    ("STREAMING".toList, anomaly_counts.getD "streaming".toList (.num 0))]

/-- The static instruction block of the blueprints listing (abbreviated). -/
def blueprintsTablePrompt : Str :=
  "\n\n---\n\n## LLM INSTRUCTION: FORMAT OUTPUT AS TWO FANCY MARKDOWN TABLES\n".toList

/-- format_blueprints_json from list_blueprints.py. -/
def format_blueprints_json (blueprints_data : Json) : Str :=
  if blueprints_data.isObj && blueprints_data.hasKey "items".toList then
    match itemsList blueprints_data with
    | [] =>
      dumps (.obj [
        ("status".toList, .str "no_data".toList),
        ("message".toList, .str "No blueprints found in the system".toList),
        ("total_blueprints".toList, .num 0),
        ("blueprints".toList, .arr []),
        ("anomalies".toList, .arr [])])
    | items =>
      dumps (.obj [
        ("status".toList, .str "success".toList),
        ("message".toList, .str ("Retrieved ".toList ++ natStr items.length ++
          " blueprints from Apstra".toList)),
        ("blueprints".toList, .arr (items.map blueprintListRecord)),
        ("anomalies".toList, .arr (items.map blueprintAnomalyRecord))]) ++
        blueprintsTablePrompt
  else
    dumps (.obj [
      ("status".toList, .str "error".toList),
      ("message".toList, .str "Unexpected data format from Apstra API".toList),
      ("raw_data".toList, blueprints_data)])

/-- handle_list_blueprints from list_blueprints.py. -/
def handle_list_blueprints (api : ApiOracle) (_arguments : Args) :
    List TextContent × List ApiCall :=
  match api blueprintsListCall with
  | .error e => ([⟨"Error listing blueprints: ".toList ++ e⟩], [blueprintsListCall])
  | .ok blueprints_data => ([⟨format_blueprints_json blueprints_data⟩], [blueprintsListCall])

/-- The loopback extraction of format_system_details_json. -/
def loopbackAddress (system_data : Json) : Json :=
  if (system_data.getD "loopback".toList .null).truthy
      && (system_data.getD "loopback".toList .null).isObj then
    (system_data.getD "loopback".toList .null).getD "ipv4_addr".toList NA
  else NA

/-- One system record of format_system_details_json. -/
def systemDetailRecord (system_data : Json) : Json :=
  .obj [
    ("NAME".toList, system_data.getD "label".toList NA),
    ("HOSTNAME".toList, system_data.getD "hostname".toList NA),
    ("SERIAL_NO".toList, system_data.getD "system_id".toList NA),
    ("DEVICE_ROLE".toList, system_data.getD "role".toList NA),
    ("LOOPBACK_ADDRESS".toList, loopbackAddress system_data),
    ("EBGP_ASN".toList, system_data.getD "domain_id".toList NA),
    ("DEPLOY_MODE".toList, system_data.getD "deploy_mode".toList NA),
    ("MANAGEMENT_LEVEL".toList, system_data.getD "management_level".toList NA),
    ("TAGS".toList, tagsField system_data)]

/-- The data list of the system-info response, analogous to itemsList. -/
def dataList (d : Json) : List Json :=
  match d with
  | .obj fs =>
    match lookupField fs "data".toList with
    | some (.arr l) => l
    | _ => []
  | _ => []

/-- The static instruction block of the system details table (abbreviated). -/
def systemsTablePrompt : Str :=
  "\n\n---\n\n## LLM INSTRUCTION: FORMAT OUTPUT AS FANCY SYSTEM DETAILS TABLE\n".toList

/-- format_system_details_json from get_system_details.py; blueprint_name is
the JSON value blueprint_info.get('label', blueprint_id). -/
def format_system_details_json (systems_data : Json) (blueprint_name : Json) : Str :=
  if systems_data.isObj && systems_data.hasKey "data".toList then
    match dataList systems_data with
    | [] =>
      dumps (.obj [
        ("status".toList, .str "no_data".toList),
        ("message".toList, .str ("No systems found in blueprint '".toList ++
          pyStrOf blueprint_name ++ "'".toList)),
        ("blueprint_name".toList, blueprint_name),
        ("total_systems".toList, .num 0),
        ("systems".toList, .arr [])])
    | systems =>
      dumps (.obj [
        ("status".toList, .str "success".toList),
        ("message".toList, .str ("Retrieved ".toList ++ natStr systems.length ++
          " systems from blueprint '".toList ++ pyStrOf blueprint_name ++ "'".toList)),
        ("blueprint_name".toList, blueprint_name),
        ("total_systems".toList, .num systems.length),
        ("systems".toList, .arr (systems.map systemDetailRecord))]) ++ systemsTablePrompt
  else
    dumps (.obj [
      ("status".toList, .str "error".toList),
      ("message".toList, .str "Unexpected data format from Apstra API".toList),
      ("raw_data".toList, systems_data)])

/-- handle_get_system_details from get_system_details.py, with its fallback
shaping of a malformed system-info response to an empty data list. -/
def handle_get_system_details (api : ApiOracle) (arguments : Args) :
    List TextContent × List ApiCall :=
  let blueprint_id := argGet arguments "blueprint_id".toList
  if blueprint_id.isEmpty then ([⟨"Blueprint ID is required".toList⟩], [])
  else
    match api blueprintsListCall with
    | .error e => ([⟨"Error getting system details: ".toList ++ e⟩], [blueprintsListCall])
    | .ok blueprints_data =>
      match resolveBlueprint blueprints_data blueprint_id with
      | none =>
        ([⟨"Blueprint '".toList ++ blueprint_id ++ "' not found".toList⟩], [blueprintsListCall])
      | some blueprint_info =>
        let bp_id := (blueprint_info.getD "id".toList (.str [])).strOr
        let call2 : ApiCall :=
          ⟨"/api/blueprints/".toList ++ bp_id ++ "/experience/web/system-info".toList,
           "GET".toList⟩
        match api call2 with
        | .error e =>
          ([⟨"Error getting system details: ".toList ++ e⟩], [blueprintsListCall, call2])
        | .ok systems_response =>
          let systems_data := if systems_response.isObj && systems_response.hasKey "data".toList
            then systems_response else .obj [("data".toList, .arr [])]
          ([⟨format_system_details_json systems_data (blueprintLabelOr blueprint_info blueprint_id)⟩],
           [blueprintsListCall, call2])

/-- One virtual-network record of format_virtual_networks_json (built from
the dict value; the dict key is unused by the source). -/
def vnRecord (vn_data : Json) : Json :=
  .obj [
    ("NAME".toList, vn_data.getD "label".toList NA),
    ("ID".toList, vn_data.getD "id".toList NA),
    ("IPV4_CIDR".toList, vn_data.getD "ipv4_subnet".toList NA),
    ("IPV4_ANYCAST_GW".toList, vn_data.getD "virtual_gateway_ipv4".toList NA),
    ("IPV6_CIDR".toList, vn_data.getD "ipv6_subnet".toList NA),
    ("IPV6_ANYCAST_GW".toList, vn_data.getD "virtual_gateway_ipv6".toList NA),
    ("VXLAN_VNID".toList, vn_data.getD "vn_id".toList NA),
    ("VRF_TARGET".toList, vn_data.getD "route_target".toList NA),
    ("MTU".toList, vn_data.getD "l3_mtu".toList NA),
    ("VLAN_ID".toList, vn_data.getD "reserved_vlan_id".toList NA),
    ("TAGS".toList, tagsField vn_data)]

/-- The static instruction block of the virtual networks table
(abbreviated). -/
def vnTablePrompt : Str :=
  "\n\n---\n\n## LLM INSTRUCTION: FORMAT OUTPUT AS FANCY VIRTUAL NETWORKS TABLE\n".toList

/-- format_virtual_networks_json from get_virtual_networks.py. -/
def format_virtual_networks_json (vn_data : Json) (blueprint_name : Json) : Str :=
  if vn_data.isObj && vn_data.hasKey "virtual_networks".toList then
    match objFields (vn_data.getD "virtual_networks".toList (.obj [])) with
    | [] =>
      dumps (.obj [
        ("status".toList, .str "no_data".toList),
        ("message".toList, .str ("No virtual networks found in blueprint '".toList ++
          pyStrOf blueprint_name ++ "'".toList)),
        ("blueprint_name".toList, blueprint_name),
        ("total_virtual_networks".toList, .num 0),
        ("virtual_networks".toList, .arr [])])
    | vns =>
      dumps (.obj [
        ("status".toList, .str "success".toList),
        ("message".toList, .str ("Retrieved ".toList ++ natStr vns.length ++
          " virtual networks from blueprint '".toList ++ pyStrOf blueprint_name ++ "'".toList)),
        ("blueprint_name".toList, blueprint_name),
        ("total_virtual_networks".toList, .num vns.length),
        ("virtual_networks".toList, .arr (vns.map (fun kv => vnRecord kv.2)))]) ++ vnTablePrompt
  else
    dumps (.obj [
      ("status".toList, .str "error".toList),
      ("message".toList, .str "Unexpected data format from Apstra API".toList),
      ("raw_data".toList, vn_data)])

/-- handle_virtual_networks from get_virtual_networks.py, with its fallback
shaping of a malformed response to an empty virtual_networks dict. -/
def handle_virtual_networks (api : ApiOracle) (arguments : Args) :
    List TextContent × List ApiCall :=
  let blueprint_id := argGet arguments "blueprint_id".toList
  if blueprint_id.isEmpty then ([⟨"Blueprint ID is required".toList⟩], [])
  else
    match api blueprintsListCall with
    | .error e => ([⟨"Error getting virtual networks: ".toList ++ e⟩], [blueprintsListCall])
    | .ok blueprints_data =>
      match resolveBlueprint blueprints_data blueprint_id with
      | none =>
        ([⟨"Blueprint '".toList ++ blueprint_id ++ "' not found".toList⟩], [blueprintsListCall])
      | some blueprint_info =>
        let bp_id := (blueprint_info.getD "id".toList (.str [])).strOr
        let call2 : ApiCall :=
          ⟨"/api/blueprints/".toList ++ bp_id ++ "/virtual-networks".toList, "GET".toList⟩
        match api call2 with
        | .error e =>
          ([⟨"Error getting virtual networks: ".toList ++ e⟩], [blueprintsListCall, call2])
        | .ok vn_response =>
          let vn_data := if vn_response.isObj && vn_response.hasKey "virtual_networks".toList
            then vn_response else .obj [("virtual_networks".toList, .obj [])]
          ([⟨format_virtual_networks_json vn_data (blueprintLabelOr blueprint_info blueprint_id)⟩],
           [blueprintsListCall, call2])

/-- The route-target fallback chain of format_security_zones_json. -/
def szRouteTarget (sz_data : Json) : Json :=
  let rt := sz_data.getD "route_target".toList .null
  let rt := if !rt.truthy && (sz_data.getD "rt_policy".toList .null).isObj then
      (sz_data.getD "rt_policy".toList (.obj [])).getD "export_rt".toList .null
    else rt
  if rt.truthy then rt else NA

/-- One security-zone record of format_security_zones_json, built from the
dict key and value. -/
def szRecord (sz_id : Str) (sz_data : Json) : Json :=
  .obj [
    ("NAME".toList, sz_data.getD "label".toList (.str sz_id)),
    ("ID".toList, .str sz_id),
    ("TYPE".toList, sz_data.getD "sz_type".toList NA),
    ("EVPN_VRF".toList, sz_data.getD "vrf_name".toList NA),
    ("VRF_TARGET".toList, szRouteTarget sz_data),
    ("VXLAN_VNID".toList, orNA (sz_data.getD "vni_id".toList .null)),
    ("MTU".toList, sz_data.getD "l3_mtu".toList NA),
    ("VLAN_ID".toList, orNA (sz_data.getD "vlan_id".toList .null)),
    ("TAGS".toList, tagsField sz_data),
    ("ROUTING_POLICY".toList, sz_data.getD "routing_policy_id".toList NA),
    ("IMPORT_POLICY".toList, sz_data.getD "import_policy".toList NA),
    ("EVPN_IRB_MODE".toList, sz_data.getD "junos_evpn_irb_mode".toList NA),
    ("VRF_DESCRIPTION".toList, sz_data.getD "vrf_description".toList NA),
    ("TENANT".toList, sz_data.getD "tenant".toList NA)]

/-- The static instruction block of the security zones table (abbreviated). -/
def szTablePrompt : Str :=
  "\n\n---\n\n## LLM INSTRUCTION: FORMAT OUTPUT AS FANCY SECURITY ZONES TABLE\n".toList

/-- The static instruction block of the empty security zones message
(abbreviated). -/
def szNoZonesPrompt : Str :=
  "\n\n---\n\n## LLM INSTRUCTION: FORMAT NO SECURITY ZONES RESPONSE\n".toList

/-- format_security_zones_json from get_security_zones.py. -/
def format_security_zones_json (sz_data : Json) (blueprint_name : Json) : Str :=
  if sz_data.isObj && sz_data.hasKey "items".toList then
    match objFields (sz_data.getD "items".toList (.obj [])) with
    | [] =>
      dumps (.obj [
        ("status".toList, .str "no_data".toList),
        ("message".toList, .str ("No security zones found in blueprint '".toList ++
          pyStrOf blueprint_name ++
          "'. This is unusual - every Apstra blueprint should have at least one default security zone.".toList)),
        ("blueprint_name".toList, blueprint_name),
        ("total_security_zones".toList, .num 0),
        ("security_zones".toList, .arr []),
        ("note".toList, .str "This may indicate an API access issue, blueprint corruption, or unexpected blueprint state. Check blueprint status in Apstra UI.".toList),
        ("troubleshooting".toList, .str "Try using get_blueprint_details to verify blueprint health and accessibility.".toList)]) ++
        szNoZonesPrompt
    | zones =>
      dumps (.obj [
        ("status".toList, .str "success".toList),
        ("message".toList, .str ("Retrieved ".toList ++ natStr zones.length ++
          " security zones from blueprint '".toList ++ pyStrOf blueprint_name ++ "'".toList)),
        ("blueprint_name".toList, blueprint_name),
        ("total_security_zones".toList, .num zones.length),
        ("security_zones".toList, .arr (zones.map (fun kv => szRecord kv.1 kv.2)))]) ++
        szTablePrompt
  else
    dumps (.obj [
      ("status".toList, .str "error".toList),
      ("message".toList, .str ("Invalid security zones data structure for blueprint '".toList ++
        pyStrOf blueprint_name ++ "'".toList)),
      ("blueprint_name".toList, blueprint_name),
      ("total_security_zones".toList, .num 0),
      ("security_zones".toList, .arr []),
      ("error_details".toList, .str "API response was not in expected format".toList)])

/-- The response shaping of handle_security_zones: None and non-dict
responses become an empty items dict, a dict without an items key is wrapped
as the items value. -/
def szShape (sz_response : Json) : Json :=
  match sz_response with
  | .null => .obj [("items".toList, .obj [])]
  | .obj _ =>
    if sz_response.hasKey "items".toList then sz_response
    else .obj [("items".toList, sz_response)]
  | _ => .obj [("items".toList, .obj [])]

/-- handle_security_zones from get_security_zones.py. -/
def handle_security_zones (api : ApiOracle) (arguments : Args) :
    List TextContent × List ApiCall :=
  let blueprint_id := argGet arguments "blueprint_id".toList
  if blueprint_id.isEmpty then ([⟨"Blueprint ID is required".toList⟩], [])
  else
    match api blueprintsListCall with
    | .error e => ([⟨"Error getting security zones: ".toList ++ e⟩], [blueprintsListCall])
    | .ok blueprints_data =>
      match resolveBlueprint blueprints_data blueprint_id with
      | none =>
        ([⟨"Blueprint '".toList ++ blueprint_id ++ "' not found".toList⟩], [blueprintsListCall])
      | some blueprint_info =>
        let bp_id := (blueprint_info.getD "id".toList (.str [])).strOr
        let call2 : ApiCall :=
          ⟨"/api/blueprints/".toList ++ bp_id ++ "/security-zones".toList, "GET".toList⟩
        match api call2 with
        | .error e =>
          ([⟨"Error getting security zones: ".toList ++ e⟩], [blueprintsListCall, call2])
        | .ok sz_response =>
          ([⟨format_security_zones_json (szShape sz_response) (blueprintLabelOr blueprint_info blueprint_id)⟩],
           [blueprintsListCall, call2])

/-- One config-mismatch record of format_config_audits_json. -/
def mismatchRecord (mismatch : Json) : Json :=
  .obj [
    ("SYSTEM_ID".toList, mismatch.getD "system_id".toList NA),
    ("CONFIG_MISMATCHED_SINCE".toList, mismatch.getD "config_mismatched_since".toList NA)]

/-- One device-status record of format_config_audits_json. -/
def deviceRecord (device : Json) : Json :=
  .obj [
    ("SYSTEM_ID".toList, device.getD "system_id".toList NA),
    ("STATE".toList, device.getD "state".toList NA),
    ("CONFIG_TYPE".toList, device.getD "config_type".toList NA),
    ("DEPLOY_STAGE".toList, device.getD "deploy_stage".toList NA),
    ("ERROR_MESSAGE".toList, device.getD "error_message".toList (.str "None".toList)),
    ("LAST_MODIFIED_AT".toList, device.getD "last_modified_at".toList NA)]

/-- One per-config-type deployment summary of format_config_audits_json. -/
def deploymentRecord (stats : Json) : Json :=
  .obj [
    ("SUCCEEDED".toList, stats.getD "num_succeeded".toList (.num 0)),
    ("FAILED".toList, stats.getD "num_failed".toList (.num 0)),
    ("PENDING".toList, stats.getD "num_pending".toList (.num 0))]

/-- The static instruction block of the configuration audit tables
(abbreviated). -/
def auditsTablePrompt : Str :=
  "\n\n---\n\n## LLM INSTRUCTION: FORMAT OUTPUT AS COMPREHENSIVE CONFIGURATION AUDIT TABLES\n".toList

/-- format_config_audits_json from get_config_audits.py. -/
def format_config_audits_json (config_data : Json) (blueprint_name : Json) : Str :=
  if config_data.isObj then
    let config_mismatches := if (config_data.getD "config_mismatch".toList .null).truthy then
        (arrItems (config_data.getD "config_mismatch".toList (.arr []))).map mismatchRecord
      else []
    let device_statuses := if (config_data.getD "device_status".toList .null).truthy then
        (arrItems (config_data.getD "device_status".toList (.arr []))).map deviceRecord
      else []
    let deployment_status := if config_data.hasKey "deployment_status".toList then
        (objFields (config_data.getD "deployment_status".toList (.obj []))).map
          (fun kv => (upperStr kv.1, deploymentRecord kv.2))
      else []
    dumps (.obj [
      ("status".toList, .str "success".toList),
      ("message".toList, .str ("Retrieved configuration audit data for blueprint '".toList ++
        pyStrOf blueprint_name ++ "'".toList)),
      ("blueprint_name".toList, blueprint_name),
      ("total_devices".toList, config_data.getD "total_devices".toList (.num 0)),
      ("overall_state".toList, config_data.getD "state".toList NA),
      ("last_modified_at".toList, config_data.getD "last_modified_at".toList NA),
      ("config_mismatches".toList, .obj [
        ("total_count".toList, .num config_mismatches.length),
        ("mismatches".toList, .arr config_mismatches)]),
      ("device_status".toList, .obj [
        ("total_count".toList, .num device_statuses.length),
        ("devices".toList, .arr device_statuses)]),
      ("deployment_status".toList, .obj deployment_status)]) ++ auditsTablePrompt
  else
    dumps (.obj [
      ("status".toList, .str "error".toList),
      ("message".toList, .str "Unexpected data format from Apstra API".toList),
      ("raw_data".toList, config_data)])

/-- handle_config_audits from get_config_audits.py. -/
def handle_config_audits (api : ApiOracle) (arguments : Args) :
    List TextContent × List ApiCall :=
  let blueprint_id := argGet arguments "blueprint_id".toList
  if blueprint_id.isEmpty then ([⟨"Blueprint ID is required".toList⟩], [])
  else
    match api blueprintsListCall with
    | .error e =>
      ([⟨"Error getting configuration audits: ".toList ++ e⟩], [blueprintsListCall])
    | .ok blueprints_data =>
      match resolveBlueprint blueprints_data blueprint_id with
      | none =>
        ([⟨"Blueprint '".toList ++ blueprint_id ++ "' not found".toList⟩], [blueprintsListCall])
      | some blueprint_info =>
        let bp_id := (blueprint_info.getD "id".toList (.str [])).strOr
        let call2 : ApiCall :=
          ⟨"/api/blueprints/".toList ++ bp_id ++ "/configuration".toList, "GET".toList⟩
        match api call2 with
        | .error e =>
          ([⟨"Error getting configuration audits: ".toList ++ e⟩], [blueprintsListCall, call2])
        | .ok config_response =>
          ([⟨format_config_audits_json config_response (blueprintLabelOr blueprint_info blueprint_id)⟩],
           [blueprintsListCall, call2])

/-! The tool dispatcher: call_tool in server.py. -/

/-- The handler type of the dispatch table. -/
abbrev Handler := ApiOracle → Args → List TextContent × List ApiCall

/-- The tool dispatch table of call_tool, in source order. -/
def tool_handlers : List (Str × Handler) :=
  [("list_blueprints".toList, handle_list_blueprints),
   ("get_blueprint_details".toList, handle_get_blueprint_details),
   ("get_system_details".toList, handle_get_system_details),
   ("get_virtual_networks".toList, handle_virtual_networks),
   ("get_security_zones".toList, handle_security_zones),
   ("get_config_audits".toList, handle_config_audits),
   ("get_blueprint_anomalies".toList, handle_get_blueprint_anomalies),
   ("apply_system_golden_config".toList, handle_apply_system_golden_config)]

/-- Association lookup in the dispatch table (tool_handlers.get(name)). -/
def findHandler : List (Str × Handler) → Str → Option Handler
  | [], _ => none
  | (k, h) :: rest, name => if k = name then some h else findHandler rest name

/-- call_tool from server.py: an unknown name raises ValueError (modelled by
.error) before the dispatch try block; a dispatched handler has already
caught every exception at its own boundary, so the surrounding try/except of
call_tool (which would turn a handler exception into an Error in tool text)
never fires in the model, and the dispatcher answers with .ok. -/
def call_tool (api : ApiOracle) (name : Str) (arguments : Args) :
    Except Str (List TextContent × List ApiCall) :=
  match findHandler tool_handlers name with
  | none => .error ("Unknown tool: ".toList ++ name)
  | some handler => .ok (handler api arguments)

/-! Supporting lemmas. -/

/-- The fuelled diff of a list against itself keeps every line. -/
lemma diffItemsGo_self : ∀ (fuel : Nat) (l : List Str),
    l.length + l.length ≤ fuel → diffItemsGo fuel l l = l.map .keep := by
  intro fuel
  induction fuel with
  | zero =>
    intro l hl
    have : l = [] := by
      cases l with
      | nil => rfl
      | cons x xs => simp at hl
    subst this
    simp [diffItemsGo]
  | succ fuel ih =>
    intro l hl
    cases l with
    | nil => simp [diffItemsGo]
    | cons x xs =>
      simp only [diffItemsGo, eq_self_iff_true, if_true, List.map_cons, List.cons.injEq,
        true_and]
      exact ih xs (by simp at hl; omega)

/-- The diff of a list against itself keeps every line. -/
lemma diffItems_self (l : List Str) : diffItems l l = l.map .keep :=
  diffItemsGo_self _ l (le_refl _)

/-- Merging a leading equal opcode into a run of unit equal opcodes yields
one spanning equal opcode. -/
lemma mergeOpsGo_keepRun (t : List Str) : ∀ i j a1 b1 : Nat,
    mergeOpsGo ⟨.equal, a1, i, b1, j⟩ (unitOps (t.map .keep) i j)
      = [⟨.equal, a1, i + t.length, b1, j + t.length⟩] := by
  induction t with
  | nil => intro i j a1 b1; simp [unitOps, mergeOpsGo]
  | cons y t ih =>
    intro i j a1 b1
    simp only [List.map_cons, unitOps, mergeOpsGo, if_pos rfl]
    rw [ih (i + 1) (j + 1) a1 b1]
    simp only [if_true, List.cons.injEq, Opcode.mk.injEq, List.length_cons, and_true, true_and]
    omega

/-- The merged opcodes of the self-diff of a nonempty list: a single equal
opcode spanning the whole list. -/
lemma selfOpcodes (l : List Str) (hl : l ≠ []) :
    mergeOps (unitOps (diffItems l l) 0 0) = [⟨.equal, 0, l.length, 0, l.length⟩] := by
  obtain ⟨x, t, rfl⟩ := List.exists_cons_of_ne_nil hl
  rw [diffItems_self]
  simp only [List.map_cons, unitOps, mergeOps]
  rw [mergeOpsGo_keepRun t 1 1 0 0]
  simp only [List.cons.injEq, Opcode.mk.injEq, List.length_cons, and_true, true_and]
  omega

/-- A single equal opcode produces no groups: after the context fixups its
span is at most the context width, and a final group that is a sole equal
opcode is dropped. -/
lemma groupLoop_singleEqual (a1 a2 b1 b2 : Nat) :
    groupLoop (fixupLast (fixupHead [⟨.equal, a1, a2, b1, b2⟩])) [] = [] := by
  simp only [fixupHead, if_pos rfl, fixupLast, groupLoop]
  rw [if_neg]
  · simp [groupLoop, isSoleEqual]
  · simp only [ctxN, not_and]
    intro
    omega

/-- The unified diff of a list against itself is empty. -/
lemma unifiedDiff_self (l : List Str) (fromfile tofile : Str) :
    unifiedDiff l l fromfile tofile = [] := by
  have hg : groupedOpcodes (mergeOps (unitOps (diffItems l l) 0 0)) = [] := by
    rcases eq_or_ne l [] with rfl | hl
    · simp only [diffItems, unitOps, mergeOps, groupedOpcodes, List.isEmpty_nil, if_pos]
      exact groupLoop_singleEqual 0 1 0 1
    · rw [selfOpcodes l hl]
      simp only [groupedOpcodes, List.isEmpty_cons, if_neg]
      exact groupLoop_singleEqual 0 l.length 0 l.length
  simp [unifiedDiff, hg]

/-! The claims about the diff generator. -/

/-- C9: for every text X, the diff generator applied to the pair (X, X)
returns the literal no-differences marker string rather than an empty
diff. -/
theorem C9_diff_of_equal_texts_is_marker (X : Str) :
    generate_config_diff X X = noDiffMarker := by
  have h : configDiffLines X X = [] := unifiedDiff_self _ _ _
  simp [generate_config_diff, h]

/-- C8: for every pair of input texts whose rendered unified diff exceeds
5000 characters, the diff generator returns the first 5000 characters of the
diff followed by the truncation marker. -/
theorem C8_oversized_diff_truncated (expected actual : Str)
    (h : (renderedConfigDiff expected actual).length > 5000) :
    generate_config_diff expected actual =
      (renderedConfigDiff expected actual).take 5000 ++ truncationMarker := by
  rcases hd : configDiffLines expected actual with _ | ⟨a, rest⟩
  · exfalso
    have hre : renderedConfigDiff expected actual = [] := by
      simp [renderedConfigDiff, hd, List.intercalate]
    rw [hre] at h
    simp at h
  · unfold generate_config_diff
    rw [hd]
    simp only [renderedConfigDiff, hd] at h ⊢
    rw [if_pos h]

/-- An input text long enough that its diff against a short text exceeds the
truncation limit. -/
def oversizedExpected : Str := List.replicate 5100 'a'

/-- The short counterpart of the oversized diff witness. -/
def oversizedActual : Str := "b\n".toList

/-- splitlinesKeepGo on newline-free text yields at most the one pending
line. -/
lemma splitlinesKeepGo_noNewline : ∀ (s acc : Str), Char.ofNat 10 ∉ s →
    splitlinesKeepGo acc s =
      if acc.isEmpty && s.isEmpty then [] else [acc.reverse ++ s] := by
  intro s
  induction s with
  | nil =>
    intro acc _
    simp [splitlinesKeepGo]
  | cons c cs ih =>
    intro acc h
    simp only [List.mem_cons, not_or] at h
    obtain ⟨hc, hcs⟩ := h
    simp only [splitlinesKeepGo]
    rw [if_neg (fun hh => hc (by rw [hh]))]
    rw [ih (c :: acc) hcs]
    simp [List.append_assoc]

/-- splitlinesKeep of a nonempty newline-free text is that one line. -/
lemma splitlinesKeep_noNewline (s : Str) (h : Char.ofNat 10 ∉ s) (hs : s ≠ []) :
    splitlinesKeep s = [s] := by
  unfold splitlinesKeep
  rw [splitlinesKeepGo_noNewline s [] h]
  simp [hs]

/-- The oversized witness text splits into its single line. -/
lemma c8_expected_lines : splitlinesKeep oversizedExpected = [List.replicate 5100 'a'] := by
  apply splitlinesKeep_noNewline
  · show Char.ofNat 10 ∉ List.replicate 5100 'a'
    intro h
    rw [List.mem_replicate] at h
    exact absurd h.2 (by decide)
  · show List.replicate 5100 'a' ≠ []
    intro h
    have h5 := congrArg List.length h
    rw [List.length_replicate, List.length_nil] at h5
    exact absurd h5 (by decide)

/-- The oversized witness line differs from the short counterpart. -/
lemma c8_lines_ne : List.replicate 5100 'a' ≠ "b\n".toList := by
  intro h
  have hb : ('b' : Char) ∈ "b\n".toList := by decide
  rw [← h, List.mem_replicate] at hb
  exact absurd hb.2 (by decide)

/-- The diff lines of the oversized witness pair. -/
lemma c8_configDiffLines : configDiffLines oversizedExpected oversizedActual =
    ["--- Expected Config".toList, "+++ Actual Config".toList, "@@ -1 +1 @@".toList,
     '-' :: List.replicate 5100 'a', '+' :: "b\n".toList] := by
  unfold configDiffLines oversizedActual
  rw [c8_expected_lines]
  have hd : diffItems [List.replicate 5100 'a'] (splitlinesKeep "b\n".toList) =
      [.del (List.replicate 5100 'a'), .ins "b\n".toList] := by
    show diffItemsGo 2 _ _ = _
    show (if List.replicate 5100 'a' = "b\n".toList then _ else _) = _
    rw [if_neg c8_lines_ne]
    rfl
  unfold unifiedDiff
  rw [hd]
  rfl

/-- Length of the rendered diff for a one-line-each pair, as a function of
the two line lengths. -/
lemma renderedSingleLen (A B : Str) :
    (List.intercalate "\n".toList
      ["--- Expected Config".toList, "+++ Actual Config".toList, "@@ -1 +1 @@".toList,
       '-' :: A, '+' :: B]).length = 53 + A.length + B.length := by
  have h1 : ("--- Expected Config".toList).length = 19 := rfl
  have h2 : ("+++ Actual Config".toList).length = 17 := rfl
  have h3 : ("@@ -1 +1 @@".toList).length = 11 := rfl
  have hsep : ("\n".toList).length = 1 := rfl
  simp only [List.intercalate, List.intersperse, List.flatten, List.append_nil,
    List.length_append, List.length_cons, h1, h2, h3, hsep]
  omega

/-- The rendered oversized diff is 5155 characters long. -/
lemma c8_rendered_length :
    (renderedConfigDiff oversizedExpected oversizedActual).length = 5155 := by
  unfold renderedConfigDiff
  rw [c8_configDiffLines, renderedSingleLen]
  rw [List.length_replicate]
  rfl

/-- Witness for C8 at a concrete oversized pair. -/
theorem C8_oversized_diff_truncated_witness :
    (renderedConfigDiff oversizedExpected oversizedActual).length > 5000 ∧
      generate_config_diff oversizedExpected oversizedActual =
        (renderedConfigDiff oversizedExpected oversizedActual).take 5000 ++ truncationMarker :=
  ⟨by rw [c8_rendered_length]; decide,
   C8_oversized_diff_truncated oversizedExpected oversizedActual
     (by rw [c8_rendered_length]; decide)⟩

/-! The remediation-workflow claims. -/

/-- Whether a JSON value is a string. -/
def isStrJson : Json → Bool
  | .str _ => true
  | _ => false

/-- Well-formedness of one anomaly record, delimiting the domain on which
the typed model agrees with the Python source (outside it the Python field
accesses raise into the handler's except clause): the record is a dict; its
identity, expected and actual fields, when present, are dicts; anomaly_type,
anomalous_node_id, the identity's system_id and the expected/actual config
values, when present, are strings. -/
def wfAnomaly (a : Json) : Bool :=
  a.isObj &&
  (a.getD "identity".toList (.obj [])).isObj &&
  (a.getD "expected".toList (.obj [])).isObj &&
  (a.getD "actual".toList (.obj [])).isObj &&
  isStrJson (a.getD "anomaly_type".toList (.str [])) &&
  isStrJson ((a.getD "expected".toList (.obj [])).getD "config".toList (.str [])) &&
  isStrJson ((a.getD "actual".toList (.obj [])).getD "config".toList (.str [])) &&
  isStrJson (a.getD "anomalous_node_id".toList (.str [])) &&
  isStrJson ((a.getD "identity".toList (.obj [])).getD "system_id".toList (.str []))

/-- Well-formedness of an anomalies response: an items key, when present in
a dict response, holds a list of well-formed anomaly records. -/
def wfAnomaliesData (d : Json) : Bool :=
  match d with
  | .obj fs =>
    match lookupField fs "items".toList with
    | some v =>
      match v with
      | .arr l => l.all wfAnomaly
      | _ => false
    | none => true
  | _ => true

/-- The config-anomaly test of the scan: anomaly_type equals config. -/
def isConfigAnomaly (a : Json) : Bool :=
  (a.getD "anomaly_type".toList .null).eqStr "config".toList

/-- The boolean scan agrees with existence of a config anomaly among the
items. -/
lemma hasConfigAnomalies_iff (d : Json) :
    hasConfigAnomalies d = true ↔ ∃ a ∈ itemsList d, isConfigAnomaly a = true := by
  unfold hasConfigAnomalies itemsList isConfigAnomaly
  cases d with
  | obj fs =>
    simp only [Json.isObj, Json.hasKey, Bool.true_and]
    cases h : lookupField fs "items".toList with
    | none => simp
    | some v => cases v <;> simp [List.any_eq_true]
  | null => simp [Json.isObj]
  | bool b => simp [Json.isObj]
  | num n => simp [Json.isObj]
  | str s => simp [Json.isObj]
  | arr l => simp [Json.isObj]

/-- A nonempty string is not empty as a boolean. -/
lemma isEmpty_false_of_ne {s : Str} (h : s ≠ []) : s.isEmpty = false := by
  cases s with
  | nil => exact absurd rfl h
  | cons c cs => rfl

/-- A confirmation outside the accepted set fails the contains test. -/
lemma contains_false_of_not_mem {s : Str} (h : s ∉ acceptedConfirmations) :
    acceptedConfirmations.contains s = false := by
  cases hc : acceptedConfirmations.contains s with
  | false => rfl
  | true => exact absurd (List.mem_of_elem_eq_true hc) h

/-- C1: for every call to apply_system_golden_config whose fetched anomaly
list contains at least one anomaly with anomaly_type config, if the supplied
confirmation value, lowercased, is not one of yes/y/confirm/apply (including
absent or empty), the handler returns the confirmation-request payload
(whose envelope carries status confirmation_required) and never issues a
POST: its only API call is the anomalies GET. -/
theorem C1_unconfirmed_requests_confirmation (api : ApiOracle) (arguments : Args)
    (d : Json) (sid : Str)
    (hsid : argGet arguments "system_id".toList = sid)
    (hne : sid ≠ [])
    (hapi : api (systemAnomaliesCall sid) = .ok d)
    (hwf : wfAnomaliesData d = true)
    (hcfg : ∃ a ∈ itemsList d, isConfigAnomaly a = true)
    (hconf : lowerStr (argGet arguments "confirmation".toList) ∉ acceptedConfirmations) :
    handle_apply_system_golden_config api arguments =
      ([⟨format_config_confirmation_request d sid⟩], [systemAnomaliesCall sid]) ∧
    ((confirmationEnvelope d sid).getD "status".toList .null).asStr =
      some "confirmation_required".toList ∧
    ∀ c ∈ (handle_apply_system_golden_config api arguments).2,
      c.method ≠ "POST".toList := by
  have hcfgb : hasConfigAnomalies d = true := (hasConfigAnomalies_iff d).mpr hcfg
  have hcont := contains_false_of_not_mem hconf
  have hmain : handle_apply_system_golden_config api arguments =
      ([⟨format_config_confirmation_request d sid⟩], [systemAnomaliesCall sid]) := by
    simp only [handle_apply_system_golden_config, hsid, isEmpty_false_of_ne hne, hapi,
      hcfgb, hcont, Bool.not_true, Bool.not_false, Bool.false_eq_true, if_false,
      Bool.or_true, if_true]
  refine ⟨hmain, rfl, ?_⟩
  rw [hmain]
  intro c hc
  rw [List.mem_singleton] at hc
  subst hc
  simp only [systemAnomaliesCall]
  decide

/-- C2: for every call to apply_system_golden_config whose fetched anomaly
list contains no anomaly with anomaly_type config (including a response that
is not a dict with an items key), the handler returns the no-action payload,
whose envelope has status no_action_needed and config_status in_sync, and
never issues a POST: its only API call is the anomalies GET. -/
theorem C2_no_config_anomalies_no_action (api : ApiOracle) (arguments : Args)
    (d : Json) (sid : Str)
    (hsid : argGet arguments "system_id".toList = sid)
    (hne : sid ≠ [])
    (hapi : api (systemAnomaliesCall sid) = .ok d)
    (hwf : wfAnomaliesData d = true)
    (hnone : ∀ a ∈ itemsList d, isConfigAnomaly a = false) :
    handle_apply_system_golden_config api arguments =
      ([⟨format_no_config_anomalies_response sid⟩], [systemAnomaliesCall sid]) ∧
    ((noActionEnvelope sid).getD "status".toList .null).asStr =
      some "no_action_needed".toList ∧
    ((noActionEnvelope sid).getD "config_status".toList .null).asStr =
      some "in_sync".toList ∧
    ∀ c ∈ (handle_apply_system_golden_config api arguments).2,
      c.method ≠ "POST".toList := by
  have hcfgb : hasConfigAnomalies d = false := by
    cases hc : hasConfigAnomalies d with
    | false => rfl
    | true =>
      obtain ⟨a, ha, hca⟩ := (hasConfigAnomalies_iff d).mp hc
      rw [hnone a ha] at hca
      exact absurd hca (by decide)
  have hmain : handle_apply_system_golden_config api arguments =
      ([⟨format_no_config_anomalies_response sid⟩], [systemAnomaliesCall sid]) := by
    simp only [handle_apply_system_golden_config, hsid, isEmpty_false_of_ne hne, hapi,
      hcfgb, Bool.not_false, Bool.false_eq_true, if_false, if_true]
  refine ⟨hmain, rfl, rfl, ?_⟩
  rw [hmain]
  intro c hc
  rw [List.mem_singleton] at hc
  subst hc
  simp only [systemAnomaliesCall]
  decide

/-- C3: for every call to apply_system_golden_config whose fetched anomaly
list contains a config anomaly and whose confirmation value lowercases into
the accepted set, the handler issues exactly one POST, to the
apply-full-config endpoint (its trace is the anomalies GET followed by that
one POST), and, when the POST returns, its text is the classification of the
outcome by format_config_application_result. -/
theorem C3_confirmed_applies_once (api : ApiOracle) (arguments : Args)
    (d : Json) (sid : Str)
    (hsid : argGet arguments "system_id".toList = sid)
    (hne : sid ≠ [])
    (hapi : api (systemAnomaliesCall sid) = .ok d)
    (hwf : wfAnomaliesData d = true)
    (hcfg : ∃ a ∈ itemsList d, isConfigAnomaly a = true)
    (hconf : lowerStr (argGet arguments "confirmation".toList) ∈ acceptedConfirmations) :
    (handle_apply_system_golden_config api arguments).2 =
      [systemAnomaliesCall sid, applyFullConfigCall sid] ∧
    ((handle_apply_system_golden_config api arguments).2.filter
      (fun c => c.method == "POST".toList)) = [applyFullConfigCall sid] ∧
    ∀ resp, api (applyFullConfigCall sid) = .ok resp →
      (handle_apply_system_golden_config api arguments).1 =
        [⟨format_config_application_result resp sid⟩] := by
  have hcfgb : hasConfigAnomalies d = true := (hasConfigAnomalies_iff d).mpr hcfg
  have hcont : acceptedConfirmations.contains
      (lowerStr (argGet arguments "confirmation".toList)) = true :=
    List.elem_eq_true_of_mem hconf
  have hcne : (lowerStr (argGet arguments "confirmation".toList)).isEmpty = false := by
    apply isEmpty_false_of_ne
    intro h
    rw [h] at hconf
    exact absurd hconf (by decide)
  have hred : handle_apply_system_golden_config api arguments =
      (match api (applyFullConfigCall sid) with
       | .error e =>
         ([⟨"Error applying golden config: ".toList ++ e⟩],
          [systemAnomaliesCall sid, applyFullConfigCall sid])
       | .ok apply_response =>
         ([⟨format_config_application_result apply_response sid⟩],
          [systemAnomaliesCall sid, applyFullConfigCall sid])) := by
    simp only [handle_apply_system_golden_config, hsid, isEmpty_false_of_ne hne, hapi,
      hcfgb, hcont, hcne, Bool.not_true, Bool.false_eq_true, if_false, Bool.or_false,
      if_true]
  have hfilter : ([systemAnomaliesCall sid, applyFullConfigCall sid].filter
      (fun c => c.method == "POST".toList)) = [applyFullConfigCall sid] := by
    have h1 : (("GET".toList : Str) == "POST".toList) = false := by decide
    have h2 : (("POST".toList : Str) == "POST".toList) = true := by decide
    simp [List.filter_cons, systemAnomaliesCall, applyFullConfigCall, h1, h2]
  cases happly : api (applyFullConfigCall sid) with
  | error e =>
    refine ⟨?_, ?_, ?_⟩
    · rw [hred, happly]
    · rw [hred, happly]
      exact hfilter
    · intro resp hresp
      exact absurd hresp (by simp)
  | ok apply_response =>
    refine ⟨?_, ?_, ?_⟩
    · rw [hred, happly]
    · rw [hred, happly]
      exact hfilter
    · intro resp hresp
      injection hresp with h
      subst h
      rw [hred, happly]

/-! Concrete fixtures shared by the workflow witnesses and the end-to-end
example claim. -/

/-- The config anomaly of the specification's end-to-end example. -/
def sampleConfigAnomaly : Json :=
  .obj [
    ("anomaly_type".toList, .str "config".toList),
    ("expected".toList, .obj [("config".toList, .str "a\nb\n".toList)]),
    ("actual".toList, .obj [("config".toList, .str "a\nc\n".toList)])]

/-- The anomaly listing of the end-to-end example: exactly one config
anomaly. -/
def sampleAnomaliesData : Json := .obj [("items".toList, .arr [sampleConfigAnomaly])]

/-- An oracle serving the example anomaly listing for system S1. -/
def sampleOracle : ApiOracle := fun c =>
  if c = systemAnomaliesCall "S1".toList then .ok sampleAnomaliesData
  else .error "unexpected call".toList

/-- The example call arguments: system S1, no confirmation. -/
def sampleArgs : Args := [("system_id".toList, "S1".toList)]

/-- A successful apply response. -/
def sampleApplyResponse : Json := .obj [("status".toList, .str "success".toList)]

/-- An oracle serving the example anomaly listing and a successful apply. -/
def sampleApplyOracle : ApiOracle := fun c =>
  if c = systemAnomaliesCall "S1".toList then .ok sampleAnomaliesData
  else if c = applyFullConfigCall "S1".toList then .ok sampleApplyResponse
  else .error "unexpected call".toList

/-- The example call arguments with an upper-case confirmation. -/
def sampleApplyArgs : Args :=
  [("system_id".toList, "S1".toList), ("confirmation".toList, "YES".toList)]

/-- An anomaly listing with no anomalies at all. -/
def emptyAnomaliesData : Json := .obj [("items".toList, .arr [])]

/-- An oracle serving the empty anomaly listing for system S2. -/
def emptyOracle : ApiOracle := fun c =>
  if c = systemAnomaliesCall "S2".toList then .ok emptyAnomaliesData
  else .error "unexpected call".toList

/-- Arguments naming system S2 with no confirmation. -/
def emptyArgs : Args := [("system_id".toList, "S2".toList)]

/-- Witness for C1 at the example fixture: no confirmation supplied, one
config anomaly fetched. -/
theorem C1_unconfirmed_requests_confirmation_witness :
    ("S1".toList ≠ ([] : Str)) ∧ wfAnomaliesData sampleAnomaliesData = true ∧
    (∃ a ∈ itemsList sampleAnomaliesData, isConfigAnomaly a = true) ∧
    (lowerStr (argGet sampleArgs "confirmation".toList) ∉ acceptedConfirmations) ∧
    handle_apply_system_golden_config sampleOracle sampleArgs =
      ([⟨format_config_confirmation_request sampleAnomaliesData "S1".toList⟩],
       [systemAnomaliesCall "S1".toList]) :=
  ⟨by decide, by decide, by decide, by decide,
   (C1_unconfirmed_requests_confirmation sampleOracle sampleArgs sampleAnomaliesData
     "S1".toList rfl (by decide) rfl (by decide) (by decide) (by decide)).1⟩

/-- Witness for C2 at the empty fixture: no config anomalies fetched. -/
theorem C2_no_config_anomalies_no_action_witness :
    ("S2".toList ≠ ([] : Str)) ∧ wfAnomaliesData emptyAnomaliesData = true ∧
    (∀ a ∈ itemsList emptyAnomaliesData, isConfigAnomaly a = false) ∧
    handle_apply_system_golden_config emptyOracle emptyArgs =
      ([⟨format_no_config_anomalies_response "S2".toList⟩],
       [systemAnomaliesCall "S2".toList]) :=
  ⟨by decide, by decide, by decide,
   (C2_no_config_anomalies_no_action emptyOracle emptyArgs emptyAnomaliesData
     "S2".toList rfl (by decide) rfl (by decide) (by decide)).1⟩

/-- Witness for C3 at the example fixture: confirmation YES lowercases into
the accepted set; exactly one POST is issued and the outcome text is the
classification of the successful response. -/
theorem C3_confirmed_applies_once_witness :
    (lowerStr (argGet sampleApplyArgs "confirmation".toList) ∈ acceptedConfirmations) ∧
    (∃ a ∈ itemsList sampleAnomaliesData, isConfigAnomaly a = true) ∧
    ((handle_apply_system_golden_config sampleApplyOracle sampleApplyArgs).2.filter
      (fun c => c.method == "POST".toList)) = [applyFullConfigCall "S1".toList] ∧
    (handle_apply_system_golden_config sampleApplyOracle sampleApplyArgs).1 =
      [⟨format_config_application_result sampleApplyResponse "S1".toList⟩] :=
  ⟨by decide, by decide,
   (C3_confirmed_applies_once sampleApplyOracle sampleApplyArgs sampleAnomaliesData
     "S1".toList rfl (by decide) rfl (by decide) (by decide) (by decide)).2.1,
   (C3_confirmed_applies_once sampleApplyOracle sampleApplyArgs sampleAnomaliesData
     "S1".toList rfl (by decide) rfl (by decide) (by decide) (by decide)).2.2
     sampleApplyResponse rfl⟩

/-! The end-to-end example claim. -/

/-- Helper for splitOnNewline. -/
def splitOnNewlineGo (acc : Str) : Str → List Str
  | [] => [acc.reverse]
  | c :: rest =>
    if c = '\n' then acc.reverse :: splitOnNewlineGo [] rest
    else splitOnNewlineGo (c :: acc) rest

/-- Splits a string at newlines (Python str.split of a rendered diff into
its lines, used to state which diff lines appear). -/
def splitOnNewline (s : Str) : List Str := splitOnNewlineGo [] s

/-- The diff text embedded in the example confirmation envelope: the
ACTUAL_STATE of the first (only) config anomaly record under
config_anomalies / anomalies_by_type / config. -/
def sampleConfigDiffText : Str :=
  let env := confirmationEnvelope sampleAnomaliesData "S1".toList
  let byType := (env.getD "config_anomalies".toList .null).getD "anomalies_by_type".toList .null
  let firstRecord := (arrItems (byType.getD "config".toList .null)).headD .null
  (firstRecord.getD "ACTUAL_STATE".toList .null).strOr

/-- C7: calling apply_system_golden_config for system S1 with no
confirmation, when the anomaly endpoint returns exactly one config anomaly
with expected config a b and actual config a c, returns the
confirmation-request payload: the envelope's status is
confirmation_required, and the embedded config-anomaly diff contains the
removal line -b and the addition line +c. -/
theorem C7_example_confirmation_diff :
    handle_apply_system_golden_config sampleOracle sampleArgs =
      ([⟨format_config_confirmation_request sampleAnomaliesData "S1".toList⟩],
       [systemAnomaliesCall "S1".toList]) ∧
    ((confirmationEnvelope sampleAnomaliesData "S1".toList).getD
      "status".toList .null).asStr = some "confirmation_required".toList ∧
    "-b".toList ∈ splitOnNewline sampleConfigDiffText ∧
    "+c".toList ∈ splitOnNewline sampleConfigDiffText :=
  ⟨rfl, rfl, by decide, by decide⟩

/-! The outcome-classification claim. -/

/-- The classification claim C4 states, read literally: the substring
success (or a status field equal to success) in the lowercased stringified
response yields success; otherwise the substring error or failed there
yields failure; anything else is success. -/
def claimedApplySuccess (apply_response : Json) : Bool :=
  if (apply_response.getD "status".toList .null).eqStr "success".toList
      || containsSub "success".toList (lowerStr (pyStrOf apply_response)) then true
  else if containsSub "error".toList (lowerStr (pyStrOf apply_response))
      || containsSub "failed".toList (lowerStr (pyStrOf apply_response)) then false
  else true

/-- The amended classification: as the claim, except that the failure test
checks key membership of error in the response dictatt rather than substring
presence of error in the stringified response, and every non-dict response
is a success. -/
def amendedApplySuccess (apply_response : Json) : Bool :=
  if apply_response.isObj then
    if (apply_response.getD "status".toList .null).eqStr "success".toList
        || containsSub "success".toList (lowerStr (pyRepr apply_response)) then true
    else if apply_response.hasKey "error".toList
        || containsSub "failed".toList (lowerStr (pyRepr apply_response)) then false
    else true
  else true

/-- A response whose stringified form contains the substring error although
its dict carries no error key. -/
def cexApplyResponse : Json := .obj [("result".toList, .str "error occurred".toList)]

/-- C4 counterexample: at cexApplyResponse the claim as stated predicts
failure (the substring error occurs in the stringified response) but the
code classifies success, emitting success=true and status applied. -/
theorem C4_substring_error_counterexample :
    claimedApplySuccess cexApplyResponse = false ∧
    applySuccess cexApplyResponse = true ∧
    ((applicationResultEnvelope cexApplyResponse "S1".toList).getD
      "success".toList .null).asBool = some true ∧
    ((applicationResultEnvelope cexApplyResponse "S1".toList).getD
      "status".toList .null).asStr = some "applied".toList := by
  decide

/-- C4 amended: the outcome envelope's success flag is exactly the amended
classification, and its status field is applied or failed accordingly. -/
theorem C4_amended_classification (apply_response : Json) (system_id : Str) :
    ((applicationResultEnvelope apply_response system_id).getD
      "success".toList .null).asBool = some (amendedApplySuccess apply_response) ∧
    ((applicationResultEnvelope apply_response system_id).getD
      "status".toList .null).asStr =
      some (if amendedApplySuccess apply_response then "applied".toList
        else "failed".toList) :=
  ⟨rfl, rfl⟩

/-! The dispatch-boundary claim. -/

/-- The dispatch lookup misses exactly the names outside the table. -/
lemma findHandler_eq_none_iff : ∀ (hs : List (Str × Handler)) (name : Str),
    findHandler hs name = none ↔ name ∉ hs.map Prod.fst := by
  intro hs name
  induction hs with
  | nil =>
    constructor
    · intro _
      rw [List.map_nil]
      exact List.not_mem_nil name
    · intro _
      rfl
  | cons kh rest ih =>
    obtain ⟨k, h⟩ := kh
    simp only [findHandler, List.map_cons, List.mem_cons]
    by_cases hk : k = name
    · subst hk
      rw [if_pos rfl]
      constructor
      · intro hsome
        exact absurd hsome (Option.some_ne_none h)
      · intro hnot
        exact absurd (Or.inl rfl) hnot
    · rw [if_neg hk, ih]
      constructor
      · intro hnm hor
        rcases hor with h1 | h2
        · exact hk h1.symm
        · exact hnm h2
      · intro hnot h2
        exact hnot (Or.inr h2)

/-- C5: for every registered tool name the dispatcher answers with a list of
text blocks for every oracle behaviour — a handler exception is caught at
the tool boundary and returned as text, never propagated — while an
operation name outside the eight recognized tools fails with the explicit
unknown-tool error. -/
theorem C5_dispatch_boundary :
    (∀ (name : Str) (api : ApiOracle) (arguments : Args),
        name ∈ tool_handlers.map Prod.fst →
        ∃ r, call_tool api name arguments = .ok r) ∧
    (∀ (name : Str) (api : ApiOracle) (arguments : Args),
        name ∉ tool_handlers.map Prod.fst →
        call_tool api name arguments = .error ("Unknown tool: ".toList ++ name)) := by
  constructor
  · intro name api arguments hmem
    cases hf : findHandler tool_handlers name with
    | none =>
      rw [findHandler_eq_none_iff] at hf
      exact absurd hmem hf
    | some handler =>
      exact ⟨handler api arguments, by simp [call_tool, hf]⟩
  · intro name api arguments hmem
    have hf : findHandler tool_handlers name = none :=
      (findHandler_eq_none_iff _ _).mpr hmem
    simp [call_tool, hf]

/-- An oracle on which every API call raises. -/
def failingOracle : ApiOracle := fun _ => .error "boom".toList

/-- Witness for C5: a registered tool still answers when every API call
raises, and an unregistered name fails with the unknown-tool error. -/
theorem C5_dispatch_boundary_witness :
    ("apply_system_golden_config".toList ∈ tool_handlers.map Prod.fst) ∧
    (∃ r, call_tool failingOracle "apply_system_golden_config".toList
      [("system_id".toList, "S1".toList)] = .ok r) ∧
    ("frobnicate".toList ∉ tool_handlers.map Prod.fst) ∧
    call_tool failingOracle "frobnicate".toList [] =
      .error ("Unknown tool: ".toList ++ "frobnicate".toList) :=
  ⟨by decide,
   C5_dispatch_boundary.1 "apply_system_golden_config".toList failingOracle
     [("system_id".toList, "S1".toList)] (by decide),
   by decide,
   C5_dispatch_boundary.2 "frobnicate".toList failingOracle [] (by decide)⟩

/-! The identifier-resolution claim. -/

/-- A successful find? splits the list at the first satisfying element. -/
lemma find?_eq_some_split {α : Type} (p : α → Bool) :
    ∀ (l : List α) (a : α), l.find? p = some a →
      ∃ l₁ l₂, l = l₁ ++ a :: l₂ ∧ ∀ x ∈ l₁, p x = false := by
  intro l
  induction l with
  | nil =>
    intro a h
    simp [List.find?] at h
  | cons x xs ih =>
    intro a h
    cases hp : p x with
    | true =>
      rw [List.find?_cons_of_pos _ hp] at h
      injection h with h
      subst h
      exact ⟨[], xs, rfl, by simp⟩
    | false =>
      rw [List.find?_cons_of_neg _ (by simp [hp])] at h
      obtain ⟨l₁, l₂, rfl, hall⟩ := ih a h
      refine ⟨x :: l₁, l₂, rfl, ?_⟩
      intro y hy
      rcases List.mem_cons.mp hy with h1 | h2
      · rw [h1, hp]
      · exact hall y h2

/-- A string-equality test against a JSON value holds exactly for the
string value itself. -/
lemma Json.eqStr_iff (j : Json) (s : Str) : j.eqStr s = true ↔ j.asStr = some s := by
  cases j <;> simp [Json.eqStr, Json.asStr]

/-- C6: resolution matches a listed item exactly on canonical id or
case-insensitively on label, returns the first match in listing order, and
for an identifier matching no item (or a malformed listing) returns
not-found, surfaced by handle_get_blueprint_details as the user-facing
not-found error — never a false match. -/
theorem C6_resolution_first_match_or_not_found (blueprints_data : Json) (blueprint_id : Str) :
    (∀ bp, resolveBlueprint blueprints_data blueprint_id = some bp →
       bpMatches bp blueprint_id = true ∧
       ∃ l₁ l₂, itemsList blueprints_data = l₁ ++ bp :: l₂ ∧
         ∀ x ∈ l₁, bpMatches x blueprint_id = false) ∧
    ((∀ bp ∈ itemsList blueprints_data, bpMatches bp blueprint_id = false) →
       resolveBlueprint blueprints_data blueprint_id = none) ∧
    (∀ bp, bpMatches bp blueprint_id = true ↔
       ((bp.getD "id".toList .null).asStr = some blueprint_id ∨
         lowerStr (bp.getD "label".toList (.str [])).strOr = lowerStr blueprint_id)) ∧
    (∀ (api : ApiOracle) (arguments : Args),
       argGet arguments "blueprint_id".toList = blueprint_id → blueprint_id ≠ [] →
       api blueprintsListCall = .ok blueprints_data →
       resolveBlueprint blueprints_data blueprint_id = none →
       handle_get_blueprint_details api arguments =
         ([⟨"Blueprint '".toList ++ blueprint_id ++ "' not found".toList⟩],
          [blueprintsListCall])) := by
  refine ⟨?_, ?_, ?_, ?_⟩
  · intro bp h
    unfold resolveBlueprint at h
    by_cases hc : (blueprints_data.isObj && blueprints_data.hasKey "items".toList) = true
    · rw [if_pos hc] at h
      have hps := List.find?_some h
      exact ⟨by simpa using hps, find?_eq_some_split _ _ bp h⟩
    · rw [if_neg hc] at h
      exact absurd h (by simp)
  · intro hall
    unfold resolveBlueprint
    by_cases hc : (blueprints_data.isObj && blueprints_data.hasKey "items".toList) = true
    · rw [if_pos hc, List.find?_eq_none]
      intro bp hbp
      rw [hall bp hbp]
      simp
    · rw [if_neg hc]
  · intro bp
    unfold bpMatches
    rw [Bool.or_eq_true, Json.eqStr_iff]
    constructor
    · intro h
      rcases h with h1 | h2
      · exact Or.inl h1
      · exact Or.inr (by simpa using h2)
    · intro h
      rcases h with h1 | h2
      · exact Or.inl h1
      · exact Or.inr (by simpa using h2)
  · intro api arguments hb hne hapi hres
    simp only [handle_get_blueprint_details, hb, isEmpty_false_of_ne hne, hapi, hres,
      Bool.false_eq_true, if_false]

/-- A listing holding the single blueprint Fabric-1. -/
def fabricItem : Json :=
  .obj [("id".toList, .str "bp-123".toList), ("label".toList, .str "Fabric-1".toList)]

/-- The listing response around fabricItem. -/
def fabricListing : Json := .obj [("items".toList, .arr [fabricItem])]

/-- An oracle serving the Fabric-1 listing. -/
def fabricOracle : ApiOracle := fun c =>
  if c = blueprintsListCall then .ok fabricListing else .error "unexpected call".toList

/-- Arguments asking for the absent blueprint Fabric-2. -/
def fabricArgs : Args := [("blueprint_id".toList, "Fabric-2".toList)]

/-- Witness for C6: Fabric-2 matches nothing in a listing holding only
Fabric-1 (although fabric-1 would match case-insensitively), resolution is
not-found and the handler surfaces the not-found error. -/
theorem C6_resolution_first_match_or_not_found_witness :
    (∀ bp ∈ itemsList fabricListing, bpMatches bp "Fabric-2".toList = false) ∧
    resolveBlueprint fabricListing "Fabric-2".toList = none ∧
    (bpMatches fabricItem "fabric-1".toList = true ↔
       ((fabricItem.getD "id".toList .null).asStr = some "fabric-1".toList ∨
         lowerStr (fabricItem.getD "label".toList (.str [])).strOr =
           lowerStr "fabric-1".toList)) ∧
    handle_get_blueprint_details fabricOracle fabricArgs =
      ([⟨"Blueprint '".toList ++ "Fabric-2".toList ++ "' not found".toList⟩],
       [blueprintsListCall]) :=
  ⟨by decide,
   (C6_resolution_first_match_or_not_found fabricListing "Fabric-2".toList).2.1 (by decide),
   (C6_resolution_first_match_or_not_found fabricListing "fabric-1".toList).2.2.1 fabricItem,
   (C6_resolution_first_match_or_not_found fabricListing "Fabric-2".toList).2.2.2
     fabricOracle fabricArgs rfl (by decide) rfl rfl⟩

/-! The dual-identifier precedence claim. -/

/-- C10: when get_blueprint_anomalies is called with both system_id and
blueprint_id non-empty, only the per-system anomaly endpoint is queried (the
blueprint endpoint never appears in the trace) and the call proceeds
normally — it formats the fetched anomalies instead of being rejected. -/
theorem C10_system_id_precedence (api : ApiOracle) (arguments : Args) (sid bid : Str)
    (hsid : argGet arguments "system_id".toList = sid) (hs : sid ≠ [])
    (hbid : argGet arguments "blueprint_id".toList = bid) (hb : bid ≠ []) :
    (handle_get_blueprint_anomalies api arguments).2 = [systemAnomaliesCall sid] ∧
    (∀ c ∈ (handle_get_blueprint_anomalies api arguments).2,
       c ≠ blueprintAnomaliesCall bid) ∧
    ∀ d, api (systemAnomaliesCall sid) = .ok d →
      (handle_get_blueprint_anomalies api arguments).1 =
        [⟨format_blueprint_anomalies_json d sid
          ("system '".toList ++ sid ++ "'".toList)⟩] := by
  have hred : handle_get_blueprint_anomalies api arguments =
      (match api (systemAnomaliesCall sid) with
       | .error e => ([⟨"Error getting anomalies: ".toList ++ e⟩], [systemAnomaliesCall sid])
       | .ok anomalies_data =>
         ([⟨format_blueprint_anomalies_json anomalies_data sid
            ("system '".toList ++ sid ++ "'".toList)⟩], [systemAnomaliesCall sid])) := by
    simp only [handle_get_blueprint_anomalies, hsid, hbid, isEmpty_false_of_ne hs,
      isEmpty_false_of_ne hb, Bool.false_and, Bool.false_eq_true, if_false]
  have hlog : (handle_get_blueprint_anomalies api arguments).2 = [systemAnomaliesCall sid] := by
    rw [hred]
    cases api (systemAnomaliesCall sid) <;> rfl
  refine ⟨hlog, ?_, ?_⟩
  · rw [hlog]
    intro c hc
    rw [List.mem_singleton] at hc
    subst hc
    intro h
    have hep := congrArg ApiCall.endpoint h
    simp only [systemAnomaliesCall, blueprintAnomaliesCall] at hep
    have h5 := congrArg (fun l : Str => l[5]?) hep
    simp only [List.append_assoc] at h5
    rw [List.getElem?_append_left (by decide), List.getElem?_append_left (by decide)] at h5
    exact absurd h5 (by decide)
  · intro d hd
    rw [hred, hd]

/-- An oracle serving the empty anomaly listing for system S2 to a call that
also names a blueprint. -/
def dualArgs : Args :=
  [("system_id".toList, "S2".toList), ("blueprint_id".toList, "BP9".toList)]

/-- Witness for C10: with both identifiers supplied only the system endpoint
is called and the anomalies are formatted. -/
theorem C10_system_id_precedence_witness :
    ("S2".toList ≠ ([] : Str)) ∧ ("BP9".toList ≠ ([] : Str)) ∧
    (handle_get_blueprint_anomalies emptyOracle dualArgs).2 =
      [systemAnomaliesCall "S2".toList] ∧
    (handle_get_blueprint_anomalies emptyOracle dualArgs).1 =
      [⟨format_blueprint_anomalies_json emptyAnomaliesData "S2".toList
        ("system '".toList ++ "S2".toList ++ "'".toList)⟩] :=
  ⟨by decide, by decide,
   (C10_system_id_precedence emptyOracle dualArgs "S2".toList "BP9".toList
     rfl (by decide) rfl (by decide)).1,
   (C10_system_id_precedence emptyOracle dualArgs "S2".toList "BP9".toList
     rfl (by decide) rfl (by decide)).2.2 emptyAnomaliesData rfl⟩

end Apstra
